import Mathlib

/-! # libuv-java, `src/main/native/file.cpp`

A shallow embedding of the JNI file layer of libuv-java and the properties
of it that are stated in the specification.

Conventions of the embedding.

* The Java heap is a table of byte arrays; a `jbyteArray` is an index into it.
  A reference beyond the table denotes an array of length zero.
* Every function returns a `Step`: the value it returns (`none` when the
  process was terminated by a failed `assert`, an uncaught C++ exception or a
  read outside an allocation), the Java heap it leaves behind, and the list of
  effects it performed, in program order (`Event`).
* The scheduler (libuv) is outside the file.  What it answers to a call is an
  input of the entry point (`uv_reply`), what it hands to the completion
  function is an input of `_fs_cb` (`uv_fs_t`).
* `JNIEnv*`, the `jobject that` and the `FileCallbacks*` are not represented:
  there is one `FileCallbacks`, `static_initialize` has run (so `_env`, the
  class and method ids are non-null and `_error` is the boxed `Integer` -1).
  `GetStringUTFChars` is the identity on the characters of a string and
  `ReleaseStringUTFChars` has no effect that is observed here.
* The content of a freshly allocated `new jbyte[n]` is indeterminate in C++;
  it is an input (`junk`) of the functions that allocate.
-/

namespace LibuvJava

/-! ## Machine integers and C strings -/

/-- A Java `byte`; its value is never computed with, only moved. -/
abbrev jbyte := Int

/-- A Java `double`; only passed through to the scheduler, never inspected. -/
abbrev jdouble := Int

/-- Conversion of an integer to a 32-bit two's-complement `int` (`jint`,
`jsize`): what `static_cast<int>`, `static_cast<jsize>` and the passing of a
wider integer where Java expects an `I` argument keep of the value. -/
def toJint (x : Int) : Int := (x + 2147483648) % 4294967296 - 2147483648

/-- The terminating character of a C string. -/
def NUL : Char := Char.ofNat 0

/-- C `strlen` on the memory that starts at the pointer: the number of
characters before the first NUL; `none` when the allocation ends before a NUL
is found (a read outside the allocation). -/
def strlen : List Char → Option Nat
  | [] => none
  | c :: cs => if c = NUL then some 0 else (strlen cs).map (· + 1)

/-- What the scheduler's `void* ptr` points to. -/
inductive Ptr where
  | NULL
  | statbuf (raw : List Int)
  | chars (mem : List Char)
  deriving DecidableEq, Repr

/-- The memory readable through `static_cast<char*>(ptr)`. -/
def Ptr.as_chars : Ptr → List Char
  | .chars mem => mem
  | _ => []

/-- Operation kinds of libuv (`uv_fs_type` of `uv.h`). -/
inductive uv_fs_type where
  | UV_FS_UNKNOWN | UV_FS_CUSTOM | UV_FS_OPEN | UV_FS_CLOSE | UV_FS_READ
  | UV_FS_WRITE | UV_FS_SENDFILE | UV_FS_STAT | UV_FS_LSTAT | UV_FS_FSTAT
  | UV_FS_FTRUNCATE | UV_FS_UTIME | UV_FS_FUTIME | UV_FS_CHMOD | UV_FS_FCHMOD
  | UV_FS_FSYNC | UV_FS_FDATASYNC | UV_FS_UNLINK | UV_FS_RMDIR | UV_FS_MKDIR
  | UV_FS_RENAME | UV_FS_READDIR | UV_FS_LINK | UV_FS_SYMLINK | UV_FS_READLINK
  | UV_FS_CHOWN | UV_FS_FCHOWN
  deriving DecidableEq, Repr

open uv_fs_type

/-! ## Java values -/

/-- Modelled from the spec: the error factory (`NewException` and
`ThrowException` of `throw.h`) is not among the sources.  An `ErrorValue`
records the arguments the factory was handed: the OS error code, the operation
name (`syscall`), the message and the path; `none` is a NULL argument. -/
structure ErrorValue where
  errorno : Int
  syscall : Option String
  msg : Option String
  path : Option String
  deriving DecidableEq, Repr

/-- Modelled from the spec: `NewException(env, errorno, syscall, msg, path)`
of `throw.h`, the error factory `makeError(code, syscall, path)`. -/
def NewException (errorno : Int) (syscall msg path : Option String) : ErrorValue :=
  { errorno := errorno, syscall := syscall, msg := msg, path := path }

/-- The Java objects that cross the JNI boundary in this file. -/
inductive JObject where
  | null
  | Integer (v : Int)
  | Long (v : Int)
  | str (s : String)
  | byteArray (ref : Nat)
  | Stats (p : Ptr)
  | Throwable (e : ErrorValue)
  deriving DecidableEq, Repr

/-- A `jstring` that may be NULL, as an object. -/
def jstring_obj : Option String → JObject
  | none => .null
  | some s => .str s

/-- The static `FileCallbacks::_error`: `Integer.valueOf(-1)`. -/
def _error : JObject := .Integer (-1)

/-- Modelled from the spec: `Stats::create` of `stats.h`, the pure converter
`statToValue(rawStat)`; the record it builds is kept as the pointer it was
built from. -/
def Stats_create (p : Ptr) : JObject := .Stats p

/-- JNI `NewStringUTF` on the memory at a `char*`: the characters before the
first NUL; NULL for a NULL pointer; `none` when the read leaves the
allocation. -/
def NewStringUTF : Ptr → Option JObject
  | .NULL => some .null
  | p => (strlen p.as_chars).map fun n => .str (String.mk (p.as_chars.take n))

/-- The Java heap: the byte arrays, addressed by reference. -/
abbrev Heap := List (List jbyte)

/-- The array a reference denotes. -/
def Heap.array (h : Heap) (ref : Nat) : List jbyte := h.getD ref []

/-! ## The request object -/

/-- The per-request state, `class FileRequest`.  `_callback` is the one
`FileCallbacks`.  `_offset` is indeterminate after construction; it is read
only by `set_bytes`, after `get_bytes` has assigned it. -/
structure FileRequest where
  _buffer : Option Nat
  _bytes : Option (List jbyte)
  _offset : Int
  _id : Int
  _fd : Int
  _path : Option String
  deriving DecidableEq, Repr

/-- The scheduler entry points this file calls, with the arguments it hands
over (the loop, the request and the completion function apart). -/
inductive uv_call where
  | uv_fs_close (fd : Int)
  | uv_fs_open (path : String) (flags mode : Int)
  | uv_fs_read (fd : Int) (length position : Int)
  | uv_fs_unlink (path : String)
  | uv_fs_write (fd : Int) (bytes : List jbyte) (length position : Int)
  | uv_fs_mkdir (path : String) (mode : Int)
  | uv_fs_rmdir (path : String)
  | uv_fs_readdir (path : String) (flags : Int)
  | uv_fs_stat (path : String)
  | uv_fs_fstat (fd : Int)
  | uv_fs_rename (path new_path : String)
  | uv_fs_fsync (fd : Int)
  | uv_fs_fdatasync (fd : Int)
  | uv_fs_ftruncate (fd : Int) (offset : Int)
  | uv_fs_sendfile (out_fd in_fd : Int) (offset length : Int)
  | uv_fs_chmod (path : String) (mode : Int)
  | uv_fs_utime (path : String) (atime mtime : jdouble)
  | uv_fs_futime (fd : Int) (atime mtime : jdouble)
  | uv_fs_lstat (path : String)
  | uv_fs_link (path new_path : String)
  | uv_fs_symlink (path new_path : String) (flags : Int)
  | uv_fs_readlink (path : String)
  | uv_fs_fchmod (fd : Int) (mode : Int)
  | uv_fs_chown (path : String) (uid gid : Int)
  | uv_fs_fchown (fd : Int) (uid gid : Int)
  deriving DecidableEq, Repr

/-- The completion function handed to the scheduler: `NULL` or `_fs_cb`. -/
inductive uv_fs_cb where
  | NULL
  | _fs_cb
  deriving DecidableEq, Repr

/-- The effects a function of this file performs. -/
inductive Event where
  /-- Allocation `new uv_fs_t()` -/
  | new_uv_fs_t
  /-- Release `delete(req)` -/
  | delete_uv_fs_t
  /-- Allocation `new FileRequest(cb, id, fd, path)` -/
  | new_FileRequest (id fd : Int) (path : Option String)
  /-- Release `delete(request)`; the effects of the destructor follow it -/
  | delete_FileRequest
  /-- Allocation `new jbyte[length]` -/
  | new_jbyte (length : Int)
  /-- Release `delete[]` of a `jbyte` array -/
  | delete_jbyte
  | NewGlobalRef (o : JObject)
  | DeleteGlobalRef (o : JObject)
  /-- A call of the scheduler: `data` is `req->data` (`none` for the request
  on the stack of a synchronous call), `cb` the completion function -/
  | uv_fs (call : uv_call) (data : Option FileRequest) (cb : uv_fs_cb)
  | uv_fs_req_cleanup
  /-- Conversion `Stats::create(ptr)` -/
  | Stats_create (p : Ptr)
  /-- Conversion `NewStringUTF(ptr)` of the scheduler's output pointer -/
  | NewStringUTF (p : Ptr)
  /-- Raising `ThrowException(env, code, syscall, msg, path)` -/
  | ThrowException (e : ErrorValue)
  /-- The Java exception a JNI region function raises for an invalid region -/
  | ArrayIndexOutOfBoundsException
  /-- Java `callback(int, int, Object)`, the single-argument shape -/
  | callback_1arg (fs_type : uv_fs_type) (id : Int) (arg : JObject)
  /-- Java `callback(int, int, Object[])`, the array shape -/
  | callback_narg (fs_type : uv_fs_type) (id : Int) (args : List JObject)
  /-- The process is terminated -/
  | abort (what : String)
  deriving DecidableEq, Repr

/-- The outcome of running a function. -/
structure Step (α : Type) where
  val : Option α
  heap : Heap
  trace : List Event

/-- Termination of the process. -/
def Step.abort {α : Type} (h : Heap) (trace : List Event) (what : String) : Step α :=
  { val := none, heap := h, trace := trace ++ [.abort what] }

/-! ## JNI array regions -/

/-- The region test of `GetByteArrayRegion` and `SetByteArrayRegion`. -/
def region_ok (array : List jbyte) (start len : Int) : Prop :=
  0 ≤ start ∧ 0 ≤ len ∧ start + len ≤ array.length

instance (array : List jbyte) (start len : Int) : Decidable (region_ok array start len) := by
  unfold region_ok; exact inferInstance

/-- Overwrite the elements of `xs` from index `at_` on with `ys` (as far as
`xs` reaches). -/
def overwrite (xs : List jbyte) (at_ : Nat) (ys : List jbyte) : List jbyte :=
  xs.take at_ ++ ys.take (xs.length - at_) ++ xs.drop (at_ + ys.length)

/-- JNI `GetByteArrayRegion(array, start, len, buf)`: copies the region into
the start of `buf`; for an invalid region raises
`ArrayIndexOutOfBoundsException` and leaves `buf` as it was.  Returns `buf`. -/
def GetByteArrayRegion (h : Heap) (array : Nat) (start len : Int) (buf : List jbyte) :
    List jbyte × List Event :=
  if region_ok (h.array array) start len then
    (overwrite buf 0 (((h.array array).drop start.toNat).take len.toNat), [])
  else
    (buf, [.ArrayIndexOutOfBoundsException])

/-- JNI `SetByteArrayRegion(array, start, len, buf)`: copies the first `len`
elements of `buf` into the region; for an invalid region raises
`ArrayIndexOutOfBoundsException` and leaves the array as it was. -/
def SetByteArrayRegion (h : Heap) (array : Nat) (start len : Int) (buf : List jbyte) :
    Heap × List Event :=
  if region_ok (h.array array) start len then
    (h.set array (overwrite (h.array array) start.toNat (buf.take len.toNat)), [])
  else
    (h, [.ArrayIndexOutOfBoundsException])

/-- The memory `new jbyte[n]` returns: `n` bytes of indeterminate content,
taken from `junk`. -/
def new_jbyte (junk : List jbyte) (n : Nat) : List jbyte :=
  (junk ++ List.replicate n 0).take n

/-! ## `FileRequest` -/

/-- The constructor `FileRequest::FileRequest(ptr, id, fd, path)`. -/
def FileRequest.construct (id fd : Int) (path : Option String) : FileRequest × List Event :=
  ({ _buffer := none, _bytes := none, _offset := 0, _id := id, _fd := fd, _path := path },
    Event.new_FileRequest id fd path ::
      (match path with
        | some p => [Event.NewGlobalRef (.str p)]
        | none => []))

/-- The destructor `FileRequest::~FileRequest()`. -/
def FileRequest.destruct (self : FileRequest) : List Event :=
  (if self._bytes.isSome then [Event.delete_jbyte] else []) ++
  (match self._buffer with
    | some b => [Event.DeleteGlobalRef (.byteArray b)]
    | none => []) ++
  (match self._path with
    | some p => [Event.DeleteGlobalRef (.str p)]
    | none => [])

/-- The method `FileRequest::get_bytes(buffer, offset, length)`; the value is
the request afterwards, whose `_bytes` is the pointer returned. -/
def FileRequest.get_bytes (self : FileRequest) (h : Heap) (junk : List jbyte)
    (buffer : Nat) (offset length : Int) : Step FileRequest :=
  if self._bytes.isSome then Step.abort h [] "assert(!_bytes)"
  else if self._buffer.isSome then Step.abort h [] "assert(!_buffer)"
  else if length < 0 then
    Step.abort h [.NewGlobalRef (.byteArray buffer)] "new jbyte[length]: bad allocation"
  else
    let got := GetByteArrayRegion h buffer offset length (new_jbyte junk length.toNat)
    { val := some { self with _offset := offset, _buffer := some buffer, _bytes := some got.1 },
      heap := h,
      trace := [.NewGlobalRef (.byteArray buffer), .new_jbyte length] ++ got.2 }

/-- The method `FileRequest::set_bytes(length)`; the value is `_buffer`. -/
def FileRequest.set_bytes (self : FileRequest) (h : Heap) (length : Int) : Step JObject :=
  match self._buffer, self._bytes with
  | some buffer, some bytes =>
    let set := SetByteArrayRegion h buffer self._offset length bytes
    { val := some (.byteArray buffer), heap := set.1, trace := set.2 }
  | _, _ => Step.abort h [] "SetByteArrayRegion on a NULL array or buffer"

/-! ## The completion dispatcher -/

/-- The `for` loop that splits the packed names of a readdir, in
`FileCallbacks::fs_cb`: `todo` iterations are left and `namebuf` is the memory
from the current pointer on.  `none` when a read leaves the allocation. -/
def fs_cb_readdir_loop : Nat → List Char → Option (List JObject)
  | 0, _ => some []
  | todo + 1, namebuf =>
    match NewStringUTF (.chars namebuf), strlen namebuf with
    | some name, some len =>
      (fs_cb_readdir_loop todo (namebuf.drop (len + 1))).map fun names => name :: names
    | _, _ => none

/-- The success overload `FileCallbacks::fs_cb(request, fs_type, result, ptr)`,
in the build that keeps `assert`. -/
def FileCallbacks.fs_cb (h : Heap) (request : FileRequest) (fs_type : uv_fs_type)
    (result : Int) (ptr : Ptr) : Step Unit :=
  let id := request._id
  let call_1arg (before : List Event) (arg : JObject) : Step Unit :=
    { val := some (), heap := h, trace := before ++ [.callback_1arg fs_type id arg] }
  match fs_type with
  | UV_FS_CLOSE => call_1arg [] (.Integer request._fd)
  | UV_FS_RENAME | UV_FS_UNLINK | UV_FS_RMDIR | UV_FS_MKDIR | UV_FS_FTRUNCATE
  | UV_FS_FSYNC | UV_FS_FDATASYNC | UV_FS_LINK | UV_FS_SYMLINK | UV_FS_CHMOD
  | UV_FS_FCHMOD | UV_FS_CHOWN | UV_FS_FCHOWN => call_1arg [] .null
  | UV_FS_OPEN =>
    { val := some (), heap := h,
      trace := [.callback_narg fs_type id
        [.Integer (toJint result), jstring_obj request._path]] }
  | UV_FS_UTIME | UV_FS_FUTIME | UV_FS_WRITE => call_1arg [] (.Long result)
  | UV_FS_READ =>
    let set := request.set_bytes h (toJint result)
    match set.val with
    | none => { val := none, heap := set.heap, trace := set.trace }
    | some buffer =>
      { val := some (), heap := set.heap,
        trace := set.trace ++ [.callback_narg fs_type id [.Long result, buffer]] }
  | UV_FS_STAT | UV_FS_LSTAT | UV_FS_FSTAT =>
    call_1arg [.Stats_create ptr] (Stats_create ptr)
  | UV_FS_READLINK =>
    match NewStringUTF ptr with
    | none => Step.abort h [.NewStringUTF ptr] "read outside the allocation"
    | some link => call_1arg [.NewStringUTF ptr] link
  | UV_FS_READDIR =>
    let namebuf := ptr.as_chars
    let nnames := toJint result
    match fs_cb_readdir_loop nnames.toNat namebuf with
    | none => Step.abort h [] "read outside the allocation"
    | some names => { val := some (), heap := h, trace := [.callback_narg fs_type id names] }
  | _ => Step.abort h [] "Unhandled eio response"

/-- The error overload `FileCallbacks::fs_cb(request, fs_type, errorno)`. -/
def FileCallbacks.fs_cb_errorno (h : Heap) (request : FileRequest) (fs_type : uv_fs_type)
    (errorno : Int) : Step Unit :=
  let id := request._id
  let path := request._path
  let cpath : Option String := path
  let exception := NewException errorno none none cpath
  { val := some (), heap := h,
    trace := [.callback_narg fs_type id [_error, .Throwable exception]] }

/-- The libuv request as the scheduler hands it to the completion function. -/
structure uv_fs_t where
  data : Option FileRequest
  fs_type : uv_fs_type
  result : Int
  errorno : Int
  ptr : Ptr
  deriving DecidableEq, Repr

/-- The completion function `_fs_cb(req)`. -/
def _fs_cb (h : Heap) (req : uv_fs_t) : Step Unit :=
  match req.data with
  | none => Step.abort h [] "assert(req->data)"
  | some request =>
    let done :=
      if req.result = -1 then
        FileCallbacks.fs_cb_errorno h request req.fs_type req.errorno
      else
        FileCallbacks.fs_cb h request req.fs_type req.result req.ptr
    match done.val with
    | none => done
    | some _ =>
      { val := some (), heap := done.heap,
        trace := done.trace ++ [.uv_fs_req_cleanup, .delete_uv_fs_t, .delete_FileRequest] ++
          request.destruct }

/-! ## The entry points -/

/-- What the scheduler answers to one call of a `uv_fs_` function. -/
structure uv_reply where
  /-- The value the call returns -/
  r : Int
  /-- The field `req.result` after a synchronous call -/
  result : Int
  /-- The field `req.ptr` after a synchronous call -/
  ptr : Ptr
  /-- The code of `uv_last_error(loop)` -/
  code : Int
  /-- The bytes a synchronous `uv_fs_read` stored at the start of its buffer -/
  data : List jbyte
  deriving DecidableEq, Repr

/-- The effect of the scheduler's read on the buffer it was handed: the bytes
read are stored from the start of the buffer, the rest is left as it was. -/
def uv_fs_read_fill (buf : List jbyte) (data : List jbyte) : List jbyte :=
  overwrite buf 0 data

/-- The `if (r < 0) ThrowException(...)` that ends a synchronous branch. -/
def throw_if_negative (r : Int) (e : ErrorValue) : List Event :=
  if r < 0 then [.ThrowException e] else []

/-- The native method `Java_net_java_libuv_Files__1close__JII`. -/
def Java_net_java_libuv_Files__1close__JII (h : Heap) (uv : uv_reply) (fd : Int)
    (callback : Int) : Step Int :=
  if callback ≠ 0 then
    let request := FileRequest.construct callback fd none
    { val := some uv.r, heap := h,
      trace := [.new_uv_fs_t] ++ request.2 ++
        [.uv_fs (.uv_fs_close fd) (some request.1) ._fs_cb] }
  else
    { val := some uv.r, heap := h,
      trace := [.uv_fs (.uv_fs_close fd) none .NULL, .uv_fs_req_cleanup] ++
        throw_if_negative uv.r (NewException uv.code (some "uv_fs_close") none none) }

/-- The native method `Java_net_java_libuv_Files__1open`; the synchronous branch raises on
`fd == -1`. -/
def Java_net_java_libuv_Files__1open (h : Heap) (uv : uv_reply) (path : String) (flags mode : Int)
    (callback : Int) : Step Int :=
  let cpath := path
  if callback ≠ 0 then
    let request := FileRequest.construct callback 0 (some path)
    { val := some uv.r, heap := h,
      trace := [.new_uv_fs_t] ++ request.2 ++
        [.uv_fs (.uv_fs_open cpath flags mode) (some request.1) ._fs_cb] }
  else
    { val := some uv.r, heap := h,
      trace := [.uv_fs (.uv_fs_open cpath flags mode) none .NULL, .uv_fs_req_cleanup] ++
        (if uv.r = -1 then
          [.ThrowException (NewException uv.code (some "uv_fs_open") none (some cpath))]
        else []) }

/-- The native method `Java_net_java_libuv_Files__1read`. -/
def Java_net_java_libuv_Files__1read (h : Heap) (junk : List jbyte) (uv : uv_reply) (fd : Int)
    (buffer : Nat) (length offset position : Int) (callback : Int) : Step Int :=
  if callback ≠ 0 then
    let request := FileRequest.construct callback fd none
    let got := request.1.get_bytes h junk buffer (toJint offset) (toJint length)
    match got.val with
    | none =>
      { val := none, heap := got.heap, trace := [.new_uv_fs_t] ++ request.2 ++ got.trace }
    | some request1 =>
      { val := some uv.r, heap := got.heap,
        trace := [.new_uv_fs_t] ++ request.2 ++ got.trace ++
          [.uv_fs (.uv_fs_read fd length position) (some request1) ._fs_cb] }
  else if length < 0 then
    Step.abort h [] "new jbyte[length]: bad allocation"
  else
    let base := uv_fs_read_fill (new_jbyte junk length.toNat) uv.data
    let set := SetByteArrayRegion h buffer (toJint offset) (toJint length) base
    { val := some uv.r, heap := set.1,
      trace := [.new_jbyte length, .uv_fs (.uv_fs_read fd length position) none .NULL] ++
        set.2 ++ [.uv_fs_req_cleanup, .delete_jbyte] ++
        throw_if_negative uv.r (NewException uv.code (some "uv_fs_read") none none) }

/-- The native method `Java_net_java_libuv_Files__1unlink`. -/
def Java_net_java_libuv_Files__1unlink (h : Heap) (uv : uv_reply) (path : String)
    (callback : Int) : Step Int :=
  let cpath := path
  if callback ≠ 0 then
    let request := FileRequest.construct callback 0 (some path)
    { val := some uv.r, heap := h,
      trace := [.new_uv_fs_t] ++ request.2 ++
        [.uv_fs (.uv_fs_unlink cpath) (some request.1) ._fs_cb] }
  else
    { val := some uv.r, heap := h,
      trace := [.uv_fs (.uv_fs_unlink cpath) none .NULL, .uv_fs_req_cleanup] ++
        throw_if_negative uv.r (NewException uv.code (some "uv_fs_unlink") none (some cpath)) }

/-- The native method `Java_net_java_libuv_Files__1write`. -/
def Java_net_java_libuv_Files__1write (h : Heap) (junk : List jbyte) (uv : uv_reply) (fd : Int)
    (data : Nat) (length offset position : Int) (callback : Int) : Step Int :=
  if length < 0 then
    Step.abort h [] "new jbyte[length]: bad allocation"
  else
    let got := GetByteArrayRegion h data (toJint offset) (toJint length)
      (new_jbyte junk length.toNat)
    let base := got.1
    if callback ≠ 0 then
      let request := FileRequest.construct callback fd none
      { val := some uv.r, heap := h,
        trace := [.new_jbyte length] ++ got.2 ++ [.new_uv_fs_t] ++ request.2 ++
          [.uv_fs (.uv_fs_write fd base length position) (some request.1) ._fs_cb] }
    else
      { val := some uv.r, heap := h,
        trace := [.new_jbyte length] ++ got.2 ++
          [.uv_fs (.uv_fs_write fd base length position) none .NULL, .uv_fs_req_cleanup] ++
          throw_if_negative uv.r (NewException uv.code (some "uv_fs_write") none none) ++
          [.delete_jbyte] }

/-- The native method `Java_net_java_libuv_Files__1mkdir`. -/
def Java_net_java_libuv_Files__1mkdir (h : Heap) (uv : uv_reply) (path : String) (mode : Int)
    (callback : Int) : Step Int :=
  let cpath := path
  if callback ≠ 0 then
    let request := FileRequest.construct callback 0 (some path)
    { val := some uv.r, heap := h,
      trace := [.new_uv_fs_t] ++ request.2 ++
        [.uv_fs (.uv_fs_mkdir cpath mode) (some request.1) ._fs_cb] }
  else
    { val := some uv.r, heap := h,
      trace := [.uv_fs (.uv_fs_mkdir cpath mode) none .NULL, .uv_fs_req_cleanup] ++
        throw_if_negative uv.r (NewException uv.code (some "uv_fs_mkdir") none (some cpath)) }

/-- The native method `Java_net_java_libuv_Files__1rmdir`. -/
def Java_net_java_libuv_Files__1rmdir (h : Heap) (uv : uv_reply) (path : String)
    (callback : Int) : Step Int :=
  let cpath := path
  if callback ≠ 0 then
    let request := FileRequest.construct callback 0 (some path)
    { val := some uv.r, heap := h,
      trace := [.new_uv_fs_t] ++ request.2 ++
        [.uv_fs (.uv_fs_rmdir cpath) (some request.1) ._fs_cb] }
  else
    { val := some uv.r, heap := h,
      trace := [.uv_fs (.uv_fs_rmdir cpath) none .NULL, .uv_fs_req_cleanup] ++
        throw_if_negative uv.r (NewException uv.code (some "uv_fs_rmdir") none (some cpath)) }

/-- The `for` loop that splits the packed names in the synchronous branch of
`Java_net_java_libuv_Files__1readdir` (the same text as the loop of the dispatcher). -/
def readdir_loop : Nat → List Char → Option (List JObject)
  | 0, _ => some []
  | todo + 1, namebuf =>
    match NewStringUTF (.chars namebuf), strlen namebuf with
    | some name, some len =>
      (readdir_loop todo (namebuf.drop (len + 1))).map fun names => name :: names
    | _, _ => none

/-- The native method `Java_net_java_libuv_Files__1readdir`; the value is the array of names, `none`
for NULL. -/
def Java_net_java_libuv_Files__1readdir (h : Heap) (uv : uv_reply) (path : String) (flags : Int)
    (callback : Int) : Step (Option (List JObject)) :=
  let cpath := path
  if callback ≠ 0 then
    let request := FileRequest.construct callback 0 (some path)
    { val := some none, heap := h,
      trace := [.new_uv_fs_t] ++ request.2 ++
        [.uv_fs (.uv_fs_readdir cpath flags) (some request.1) ._fs_cb] }
  else
    let r := uv.r
    if r ≥ 0 then
      let namebuf := uv.ptr.as_chars
      let nnames := toJint uv.result
      match readdir_loop nnames.toNat namebuf with
      | none =>
        Step.abort h [.uv_fs (.uv_fs_readdir cpath flags) none .NULL]
          "read outside the allocation"
      | some names =>
        { val := some (some names), heap := h,
          trace := [.uv_fs (.uv_fs_readdir cpath flags) none .NULL, .uv_fs_req_cleanup] }
    else
      { val := some none, heap := h,
        trace := [.uv_fs (.uv_fs_readdir cpath flags) none .NULL,
          .ThrowException (NewException uv.code (some "uv_fs_readdir") none (some cpath)),
          .uv_fs_req_cleanup] }

/-- The native method `Java_net_java_libuv_Files__1stat`; the value is the `Stats` object returned. -/
def Java_net_java_libuv_Files__1stat (h : Heap) (uv : uv_reply) (path : String)
    (callback : Int) : Step JObject :=
  let cpath := path
  if callback ≠ 0 then
    let request := FileRequest.construct callback 0 (some path)
    { val := some .null, heap := h,
      trace := [.new_uv_fs_t] ++ request.2 ++
        [.uv_fs (.uv_fs_stat cpath) (some request.1) ._fs_cb] }
  else
    let r := uv.r
    let stats := Stats_create uv.ptr
    { val := some stats, heap := h,
      trace := [.uv_fs (.uv_fs_stat cpath) none .NULL, .Stats_create uv.ptr,
        .uv_fs_req_cleanup] ++
        throw_if_negative r (NewException uv.code (some "uv_fs_stat") none (some cpath)) }

/-- The native method `Java_net_java_libuv_Files__1fstat`; the value is the `Stats` object returned. -/
def Java_net_java_libuv_Files__1fstat (h : Heap) (uv : uv_reply) (fd : Int)
    (callback : Int) : Step JObject :=
  if callback ≠ 0 then
    let request := FileRequest.construct callback fd none
    { val := some .null, heap := h,
      trace := [.new_uv_fs_t] ++ request.2 ++
        [.uv_fs (.uv_fs_fstat fd) (some request.1) ._fs_cb] }
  else
    let r := uv.r
    let stats := Stats_create uv.ptr
    { val := some stats, heap := h,
      trace := [.uv_fs (.uv_fs_fstat fd) none .NULL, .Stats_create uv.ptr,
        .uv_fs_req_cleanup] ++
        throw_if_negative r (NewException uv.code (some "uv_fs_fstat") none none) }

/-- The native method `Java_net_java_libuv_Files__1rename`. -/
def Java_net_java_libuv_Files__1rename (h : Heap) (uv : uv_reply) (path new_path : String)
    (callback : Int) : Step Int :=
  let src_path := path
  let dst_path := new_path
  if callback ≠ 0 then
    let request := FileRequest.construct callback 0 (some path)
    { val := some uv.r, heap := h,
      trace := [.new_uv_fs_t] ++ request.2 ++
        [.uv_fs (.uv_fs_rename src_path dst_path) (some request.1) ._fs_cb] }
  else
    { val := some uv.r, heap := h,
      trace := [.uv_fs (.uv_fs_rename src_path dst_path) none .NULL, .uv_fs_req_cleanup] ++
        throw_if_negative uv.r (NewException uv.code (some "uv_fs_rename") none (some src_path)) }

/-- The native method `Java_net_java_libuv_Files__1fsync`. -/
def Java_net_java_libuv_Files__1fsync (h : Heap) (uv : uv_reply) (fd : Int)
    (callback : Int) : Step Int :=
  if callback ≠ 0 then
    let request := FileRequest.construct callback fd none
    { val := some uv.r, heap := h,
      trace := [.new_uv_fs_t] ++ request.2 ++
        [.uv_fs (.uv_fs_fsync fd) (some request.1) ._fs_cb] }
  else
    { val := some uv.r, heap := h,
      trace := [.uv_fs (.uv_fs_fsync fd) none .NULL, .uv_fs_req_cleanup] ++
        throw_if_negative uv.r (NewException uv.code (some "uv_fs_fsync") none none) }

/-- The native method `Java_net_java_libuv_Files__1fdatasync`. -/
def Java_net_java_libuv_Files__1fdatasync (h : Heap) (uv : uv_reply) (fd : Int)
    (callback : Int) : Step Int :=
  if callback ≠ 0 then
    let request := FileRequest.construct callback fd none
    { val := some uv.r, heap := h,
      trace := [.new_uv_fs_t] ++ request.2 ++
        [.uv_fs (.uv_fs_fdatasync fd) (some request.1) ._fs_cb] }
  else
    { val := some uv.r, heap := h,
      trace := [.uv_fs (.uv_fs_fdatasync fd) none .NULL, .uv_fs_req_cleanup] ++
        throw_if_negative uv.r (NewException uv.code (some "uv_fs_fdatasync") none none) }

/-- The native method `Java_net_java_libuv_Files__1ftruncate`. -/
def Java_net_java_libuv_Files__1ftruncate (h : Heap) (uv : uv_reply) (fd : Int) (offset : Int)
    (callback : Int) : Step Int :=
  if callback ≠ 0 then
    let request := FileRequest.construct callback fd none
    { val := some uv.r, heap := h,
      trace := [.new_uv_fs_t] ++ request.2 ++
        [.uv_fs (.uv_fs_ftruncate fd offset) (some request.1) ._fs_cb] }
  else
    { val := some uv.r, heap := h,
      trace := [.uv_fs (.uv_fs_ftruncate fd offset) none .NULL, .uv_fs_req_cleanup] ++
        throw_if_negative uv.r (NewException uv.code (some "uv_fs_ftruncate") none none) }

/-- The native method `Java_net_java_libuv_Files__1sendfile`. -/
def Java_net_java_libuv_Files__1sendfile (h : Heap) (uv : uv_reply) (out_fd in_fd : Int) (offset length : Int)
    (callback : Int) : Step Int :=
  if callback ≠ 0 then
    let request := FileRequest.construct callback in_fd none
    { val := some uv.r, heap := h,
      trace := [.new_uv_fs_t] ++ request.2 ++
        [.uv_fs (.uv_fs_sendfile out_fd in_fd offset length) (some request.1) ._fs_cb] }
  else
    { val := some uv.r, heap := h,
      trace := [.uv_fs (.uv_fs_sendfile out_fd in_fd offset length) none .NULL, .uv_fs_req_cleanup] ++
        throw_if_negative uv.r (NewException uv.code (some "uv_fs_sendfile") none none) }

/-- The native method `Java_net_java_libuv_Files__1chmod`. -/
def Java_net_java_libuv_Files__1chmod (h : Heap) (uv : uv_reply) (path : String) (mode : Int)
    (callback : Int) : Step Int :=
  let cpath := path
  if callback ≠ 0 then
    let request := FileRequest.construct callback 0 (some path)
    { val := some uv.r, heap := h,
      trace := [.new_uv_fs_t] ++ request.2 ++
        [.uv_fs (.uv_fs_chmod cpath mode) (some request.1) ._fs_cb] }
  else
    { val := some uv.r, heap := h,
      trace := [.uv_fs (.uv_fs_chmod cpath mode) none .NULL, .uv_fs_req_cleanup] ++
        throw_if_negative uv.r (NewException uv.code (some "uv_fs_chmod") none (some cpath)) }

/-- The native method `Java_net_java_libuv_Files__1utime`. -/
def Java_net_java_libuv_Files__1utime (h : Heap) (uv : uv_reply) (path : String) (atime mtime : jdouble)
    (callback : Int) : Step Int :=
  let cpath := path
  if callback ≠ 0 then
    let request := FileRequest.construct callback 0 (some path)
    { val := some uv.r, heap := h,
      trace := [.new_uv_fs_t] ++ request.2 ++
        [.uv_fs (.uv_fs_utime cpath atime mtime) (some request.1) ._fs_cb] }
  else
    { val := some uv.r, heap := h,
      trace := [.uv_fs (.uv_fs_utime cpath atime mtime) none .NULL, .uv_fs_req_cleanup] ++
        throw_if_negative uv.r (NewException uv.code (some "uv_fs_utime") none (some cpath)) }

/-- The native method `Java_net_java_libuv_Files__1futime`. -/
def Java_net_java_libuv_Files__1futime (h : Heap) (uv : uv_reply) (fd : Int) (atime mtime : jdouble)
    (callback : Int) : Step Int :=
  if callback ≠ 0 then
    let request := FileRequest.construct callback fd none
    { val := some uv.r, heap := h,
      trace := [.new_uv_fs_t] ++ request.2 ++
        [.uv_fs (.uv_fs_futime fd atime mtime) (some request.1) ._fs_cb] }
  else
    { val := some uv.r, heap := h,
      trace := [.uv_fs (.uv_fs_futime fd atime mtime) none .NULL, .uv_fs_req_cleanup] ++
        throw_if_negative uv.r (NewException uv.code (some "uv_fs_futime") none none) }

/-- The native method `Java_net_java_libuv_Files__1lstat`; the value is the `Stats` object returned. -/
def Java_net_java_libuv_Files__1lstat (h : Heap) (uv : uv_reply) (path : String)
    (callback : Int) : Step JObject :=
  let cpath := path
  if callback ≠ 0 then
    let request := FileRequest.construct callback 0 (some path)
    { val := some .null, heap := h,
      trace := [.new_uv_fs_t] ++ request.2 ++
        [.uv_fs (.uv_fs_lstat cpath) (some request.1) ._fs_cb] }
  else
    let r := uv.r
    let stats := Stats_create uv.ptr
    { val := some stats, heap := h,
      trace := [.uv_fs (.uv_fs_lstat cpath) none .NULL, .Stats_create uv.ptr,
        .uv_fs_req_cleanup] ++
        throw_if_negative r (NewException uv.code (some "uv_fs_lstat") none (some cpath)) }

/-- The native method `Java_net_java_libuv_Files__1link`. -/
def Java_net_java_libuv_Files__1link (h : Heap) (uv : uv_reply) (path new_path : String)
    (callback : Int) : Step Int :=
  let src_path := path
  let dst_path := new_path
  if callback ≠ 0 then
    let request := FileRequest.construct callback 0 (some path)
    { val := some uv.r, heap := h,
      trace := [.new_uv_fs_t] ++ request.2 ++
        [.uv_fs (.uv_fs_link src_path dst_path) (some request.1) ._fs_cb] }
  else
    { val := some uv.r, heap := h,
      trace := [.uv_fs (.uv_fs_link src_path dst_path) none .NULL, .uv_fs_req_cleanup] ++
        throw_if_negative uv.r (NewException uv.code (some "uv_fs_link") none (some src_path)) }

/-- The native method `Java_net_java_libuv_Files__1symlink`. -/
def Java_net_java_libuv_Files__1symlink (h : Heap) (uv : uv_reply) (path new_path : String) (flags : Int)
    (callback : Int) : Step Int :=
  let src_path := path
  let dst_path := new_path
  if callback ≠ 0 then
    let request := FileRequest.construct callback 0 (some path)
    { val := some uv.r, heap := h,
      trace := [.new_uv_fs_t] ++ request.2 ++
        [.uv_fs (.uv_fs_symlink src_path dst_path flags) (some request.1) ._fs_cb] }
  else
    { val := some uv.r, heap := h,
      trace := [.uv_fs (.uv_fs_symlink src_path dst_path flags) none .NULL, .uv_fs_req_cleanup] ++
        throw_if_negative uv.r (NewException uv.code (some "uv_fs_symlink") none (some src_path)) }

/-- The native method `Java_net_java_libuv_Files__1readlink`; the value is the string returned. -/
def Java_net_java_libuv_Files__1readlink (h : Heap) (uv : uv_reply) (path : String)
    (callback : Int) : Step JObject :=
  let cpath := path
  if callback ≠ 0 then
    let request := FileRequest.construct callback 0 (some path)
    { val := some .null, heap := h,
      trace := [.new_uv_fs_t] ++ request.2 ++
        [.uv_fs (.uv_fs_readlink cpath) (some request.1) ._fs_cb] }
  else
    let r := uv.r
    match NewStringUTF uv.ptr with
    | none =>
      Step.abort h [.uv_fs (.uv_fs_readlink cpath) none .NULL, .NewStringUTF uv.ptr]
        "read outside the allocation"
    | some link =>
      { val := some link, heap := h,
        trace := [.uv_fs (.uv_fs_readlink cpath) none .NULL, .NewStringUTF uv.ptr,
          .uv_fs_req_cleanup] ++
          throw_if_negative r (NewException uv.code (some "uv_fs_readklink") none (some cpath)) }

/-- The native method `Java_net_java_libuv_Files__1fchmod`. -/
def Java_net_java_libuv_Files__1fchmod (h : Heap) (uv : uv_reply) (fd : Int) (mode : Int)
    (callback : Int) : Step Int :=
  if callback ≠ 0 then
    let request := FileRequest.construct callback fd none
    { val := some uv.r, heap := h,
      trace := [.new_uv_fs_t] ++ request.2 ++
        [.uv_fs (.uv_fs_fchmod fd mode) (some request.1) ._fs_cb] }
  else
    { val := some uv.r, heap := h,
      trace := [.uv_fs (.uv_fs_fchmod fd mode) none .NULL, .uv_fs_req_cleanup] ++
        throw_if_negative uv.r (NewException uv.code (some "uv_fs_fchmod") none none) }

/-- The native method `Java_net_java_libuv_Files__1chown`. -/
def Java_net_java_libuv_Files__1chown (h : Heap) (uv : uv_reply) (path : String) (uid gid : Int)
    (callback : Int) : Step Int :=
  let cpath := path
  if callback ≠ 0 then
    let request := FileRequest.construct callback 0 (some path)
    { val := some uv.r, heap := h,
      trace := [.new_uv_fs_t] ++ request.2 ++
        [.uv_fs (.uv_fs_chown cpath uid gid) (some request.1) ._fs_cb] }
  else
    { val := some uv.r, heap := h,
      trace := [.uv_fs (.uv_fs_chown cpath uid gid) none .NULL, .uv_fs_req_cleanup] ++
        throw_if_negative uv.r (NewException uv.code (some "uv_fs_chown") none (some cpath)) }

/-- The native method `Java_net_java_libuv_Files__1fchown`. -/
def Java_net_java_libuv_Files__1fchown (h : Heap) (uv : uv_reply) (fd : Int) (uid gid : Int)
    (callback : Int) : Step Int :=
  if callback ≠ 0 then
    let request := FileRequest.construct callback fd none
    { val := some uv.r, heap := h,
      trace := [.new_uv_fs_t] ++ request.2 ++
        [.uv_fs (.uv_fs_fchown fd uid gid) (some request.1) ._fs_cb] }
  else
    { val := some uv.r, heap := h,
      trace := [.uv_fs (.uv_fs_fchown fd uid gid) none .NULL, .uv_fs_req_cleanup] ++
        throw_if_negative uv.r (NewException uv.code (some "uv_fs_fchown") none none) }

/-! ## Calls of the entry points -/

/-- A call of one of the 25 native methods of `net.java.libuv.Files` that
perform a filesystem operation, with its Java arguments. -/
inductive Call where
  | _close (fd : Int)
  | _open (path : String) (flags mode : Int)
  | _read (fd : Int) (buffer : Nat) (length offset position : Int)
  | _unlink (path : String)
  | _write (fd : Int) (data : Nat) (length offset position : Int)
  | _mkdir (path : String) (mode : Int)
  | _rmdir (path : String)
  | _readdir (path : String) (flags : Int)
  | _stat (path : String)
  | _fstat (fd : Int)
  | _rename (path new_path : String)
  | _fsync (fd : Int)
  | _fdatasync (fd : Int)
  | _ftruncate (fd : Int) (offset : Int)
  | _sendfile (out_fd in_fd : Int) (offset length : Int)
  | _chmod (path : String) (mode : Int)
  | _utime (path : String) (atime mtime : jdouble)
  | _futime (fd : Int) (atime mtime : jdouble)
  | _lstat (path : String)
  | _link (path new_path : String)
  | _symlink (path new_path : String) (flags : Int)
  | _readlink (path : String)
  | _fchmod (fd : Int) (mode : Int)
  | _chown (path : String) (uid gid : Int)
  | _fchown (fd : Int) (uid gid : Int)
  deriving DecidableEq, Repr

/-- The value a native method returns to Java. -/
inductive JRet where
  | jint (v : Int)
  | jobject (o : JObject)
  | jobjectArray (a : Option (List JObject))
  deriving DecidableEq, Repr

/-- The outcome with its value converted. -/
def Step.map {α β : Type} (f : α → β) (s : Step α) : Step β :=
  { val := s.val.map f, heap := s.heap, trace := s.trace }

/-- Running a call: the native method it names, applied to its arguments and
to the completion id `callback` (0 selects the synchronous mode). -/
def Call.run (h : Heap) (junk : List jbyte) (uv : uv_reply) (callback : Int) : Call → Step JRet
  | ._close fd => (Java_net_java_libuv_Files__1close__JII h uv fd callback).map .jint
  | ._open path flags mode =>
    (Java_net_java_libuv_Files__1open h uv path flags mode callback).map .jint
  | ._read fd buffer length offset position =>
    (Java_net_java_libuv_Files__1read h junk uv fd buffer length offset position callback).map
      .jint
  | ._unlink path => (Java_net_java_libuv_Files__1unlink h uv path callback).map .jint
  | ._write fd data length offset position =>
    (Java_net_java_libuv_Files__1write h junk uv fd data length offset position callback).map
      .jint
  | ._mkdir path mode => (Java_net_java_libuv_Files__1mkdir h uv path mode callback).map .jint
  | ._rmdir path => (Java_net_java_libuv_Files__1rmdir h uv path callback).map .jint
  | ._readdir path flags =>
    (Java_net_java_libuv_Files__1readdir h uv path flags callback).map .jobjectArray
  | ._stat path => (Java_net_java_libuv_Files__1stat h uv path callback).map .jobject
  | ._fstat fd => (Java_net_java_libuv_Files__1fstat h uv fd callback).map .jobject
  | ._rename path new_path =>
    (Java_net_java_libuv_Files__1rename h uv path new_path callback).map .jint
  | ._fsync fd => (Java_net_java_libuv_Files__1fsync h uv fd callback).map .jint
  | ._fdatasync fd => (Java_net_java_libuv_Files__1fdatasync h uv fd callback).map .jint
  | ._ftruncate fd offset =>
    (Java_net_java_libuv_Files__1ftruncate h uv fd offset callback).map .jint
  | ._sendfile out_fd in_fd offset length =>
    (Java_net_java_libuv_Files__1sendfile h uv out_fd in_fd offset length callback).map .jint
  | ._chmod path mode => (Java_net_java_libuv_Files__1chmod h uv path mode callback).map .jint
  | ._utime path atime mtime =>
    (Java_net_java_libuv_Files__1utime h uv path atime mtime callback).map .jint
  | ._futime fd atime mtime =>
    (Java_net_java_libuv_Files__1futime h uv fd atime mtime callback).map .jint
  | ._lstat path => (Java_net_java_libuv_Files__1lstat h uv path callback).map .jobject
  | ._link path new_path =>
    (Java_net_java_libuv_Files__1link h uv path new_path callback).map .jint
  | ._symlink path new_path flags =>
    (Java_net_java_libuv_Files__1symlink h uv path new_path flags callback).map .jint
  | ._readlink path => (Java_net_java_libuv_Files__1readlink h uv path callback).map .jobject
  | ._fchmod fd mode => (Java_net_java_libuv_Files__1fchmod h uv fd mode callback).map .jint
  | ._chown path uid gid =>
    (Java_net_java_libuv_Files__1chown h uv path uid gid callback).map .jint
  | ._fchown fd uid gid =>
    (Java_net_java_libuv_Files__1fchown h uv fd uid gid callback).map .jint

/-! ## Vocabulary of the specification -/

/-- The name of the operation a call performs, as the specification lists
the 25 operations. -/
def Call.name : Call → String
  | ._close .. => "close"
  | ._open .. => "open"
  | ._read .. => "read"
  | ._unlink .. => "unlink"
  | ._write .. => "write"
  | ._mkdir .. => "mkdir"
  | ._rmdir .. => "rmdir"
  | ._readdir .. => "readdir"
  | ._stat .. => "stat"
  | ._fstat .. => "fstat"
  | ._rename .. => "rename"
  | ._fsync .. => "fsync"
  | ._fdatasync .. => "fdatasync"
  | ._ftruncate .. => "ftruncate"
  | ._sendfile .. => "sendfile"
  | ._chmod .. => "chmod"
  | ._utime .. => "utime"
  | ._futime .. => "futime"
  | ._lstat .. => "lstat"
  | ._link .. => "link"
  | ._symlink .. => "symlink"
  | ._readlink .. => "readlink"
  | ._fchmod .. => "fchmod"
  | ._chown .. => "chown"
  | ._fchown .. => "fchown"

/-- The path a call requests: the path of a path-taking operation (the source
path of rename, link and symlink), none for a descriptor-based operation. -/
def Call.path : Call → Option String
  | ._open path .. => some path
  | ._unlink path => some path
  | ._mkdir path .. => some path
  | ._rmdir path => some path
  | ._readdir path .. => some path
  | ._stat path => some path
  | ._lstat path => some path
  | ._chmod path .. => some path
  | ._chown path .. => some path
  | ._utime path .. => some path
  | ._readlink path => some path
  | ._rename path .. => some path
  | ._link path .. => some path
  | ._symlink path .. => some path
  | _ => none

/-- The descriptor a call stores in its request object: the descriptor of a
descriptor-based operation (the input descriptor for sendfile), 0 for a
path-based operation. -/
def Call.fd : Call → Int
  | ._close fd => fd
  | ._read fd .. => fd
  | ._write fd .. => fd
  | ._fstat fd => fd
  | ._fsync fd => fd
  | ._fdatasync fd => fd
  | ._ftruncate fd .. => fd
  | ._sendfile _ in_fd .. => in_fd
  | ._futime fd .. => fd
  | ._fchmod fd .. => fd
  | ._fchown fd .. => fd
  | _ => 0

/-- The callbacks into Java among the effects. -/
def Event.is_callback : Event → Bool
  | .callback_1arg .. => true
  | .callback_narg .. => true
  | _ => false

/-- The callbacks delivered, in order. -/
def callbacks (trace : List Event) : List Event := trace.filter Event.is_callback

/-- The request objects handed to the scheduler together with `_fs_cb`. -/
def submitted : List Event → List FileRequest
  | [] => []
  | .uv_fs _ (some request) ._fs_cb :: rest => request :: submitted rest
  | _ :: rest => submitted rest

/-- The errors raised with `ThrowException`, in order. -/
def thrown : List Event → List ErrorValue
  | [] => []
  | .ThrowException e :: rest => e :: thrown rest
  | _ :: rest => thrown rest

/-- The request as the scheduler leaves it for the completion function: the
bytes read are stored in the buffer `_bytes` that it was handed, nothing else
of the request is the scheduler's to change. -/
def FileRequest.filled (request : FileRequest) (data : List jbyte) : FileRequest :=
  { request with _bytes := request._bytes.map fun bytes => uv_fs_read_fill bytes data }

/-! ## Vocabulary of the statements and concrete inputs -/

/-- A failed asynchronous `open` of `/missing` with completion id 7: the
request it submits, completed with result -1 and error code 34. -/
def missing_open_request : FileRequest :=
  { _buffer := none, _bytes := none, _offset := 0, _id := 7, _fd := 0, _path := some "/missing" }

/-- The completion of `missing_open_request` with an error. -/
def missing_open_completion : uv_fs_t :=
  { data := some missing_open_request, fs_type := UV_FS_OPEN, result := -1, errorno := 34,
    ptr := .NULL }

/-- The request a successful asynchronous `utime` of `/f` with completion id 7
submits. -/
def utime_request : FileRequest :=
  { _buffer := none, _bytes := none, _offset := 0, _id := 7, _fd := 0, _path := some "/f" }

/-- The successful completion of `utime_request`: result 0. -/
def utime_completion : uv_fs_t :=
  { data := some utime_request, fs_type := UV_FS_UTIME, result := 0, errorno := 0, ptr := .NULL }

/-- The request an asynchronous `close` of descriptor 5 with completion id 7
submits. -/
def close_request : FileRequest :=
  { _buffer := none, _bytes := none, _offset := 0, _id := 7, _fd := 5, _path := none }

/-- The successful completion of `close_request`: result 0. -/
def close_completion : uv_fs_t :=
  { data := some close_request, fs_type := UV_FS_CLOSE, result := 0, errorno := 0, ptr := .NULL }

/-- The request an asynchronous `open` of `/etc/hosts` with completion id 7
submits. -/
def hosts_open_request : FileRequest :=
  { _buffer := none, _bytes := none, _offset := 0, _id := 7, _fd := 0,
    _path := some "/etc/hosts" }

/-- The successful completion of `hosts_open_request` with descriptor 9. -/
def hosts_open_completion : uv_fs_t :=
  { data := some hosts_open_request, fs_type := UV_FS_OPEN, result := 9, errorno := 0,
    ptr := .NULL }

/-- A scheduler reply that is all zeros. -/
def reply_zero : uv_reply := { r := 0, result := 0, ptr := .NULL, code := 0, data := [] }


/-- A heap with one array of five bytes. -/
def five_bytes : Heap := [[1, 2, 3, 4, 5]]

/-- The request an asynchronous `read` of 3 bytes at offset 1 into the array of
`five_bytes` submits (descriptor 3, completion id 7). -/
def short_read_request : FileRequest :=
  { _buffer := some 0, _bytes := some [2, 3, 4], _offset := 1, _id := 7, _fd := 3,
    _path := none }

/-- The completion of `short_read_request` by a short read: the 2 bytes 9, 8. -/
def short_read_completion : uv_fs_t :=
  { data := some (short_read_request.filled [9, 8]), fs_type := UV_FS_READ, result := 2,
    errorno := 0, ptr := .NULL }

/-- The reply of the scheduler to the same read made synchronously. -/
def short_read_reply : uv_reply :=
  { r := 2, result := 2, ptr := .NULL, code := 0, data := [9, 8] }


/-- The bytes handed to the scheduler by `uv_fs_write`, call by call. -/
def written : List Event → List (List jbyte)
  | [] => []
  | .uv_fs (.uv_fs_write _ bytes _ _) _ _ :: rest => bytes :: written rest
  | _ :: rest => written rest


/-- A heap with a data array and a buffer of the same length. -/
def data_and_buffer : Heap := [[1, 2, 3, 4, 5], [0, 0, 0, 0, 0]]

/-- The request an asynchronous `read` of 3 bytes at offset 1 into the buffer of
`data_and_buffer` submits (descriptor 3, completion id 7). -/
def round_trip_request : FileRequest :=
  { _buffer := some 1, _bytes := some [0, 0, 0], _offset := 1, _id := 7, _fd := 3,
    _path := none }

/-- The completion of `round_trip_request` with the 3 bytes 2, 3, 4. -/
def round_trip_completion : uv_fs_t :=
  { data := some (round_trip_request.filled [2, 3, 4]), fs_type := UV_FS_READ, result := 3,
    errorno := 0, ptr := .NULL }

/-- The reply of the scheduler to a synchronous read that returns 2, 3, 4. -/
def round_trip_reply : uv_reply :=
  { r := 3, result := 3, ptr := .NULL, code := 0, data := [2, 3, 4] }


/-- The packed buffer of a list of names: each name followed by a NUL. -/
def pack_names : List String → List Char
  | [] => []
  | name :: rest => name.data ++ NUL :: pack_names rest

/-- A request with completion id 7 for the directory `/d`. -/
def readdir_request : FileRequest :=
  { _buffer := none, _bytes := none, _offset := 0, _id := 7, _fd := 0, _path := some "/d" }

/-- The reply of the scheduler for a directory with the entries a, b, c, with
one more NUL after the last name. -/
def abc_reply : uv_reply :=
  { r := 3, result := 3, ptr := .chars (pack_names ["a", "b", "c"] ++ [NUL]), code := 0,
    data := [] }


/-- The scheduler calls among the effects: for each, the request object
attached to the libuv request and the completion function. -/
def scheduler_calls : List Event → List (Option FileRequest × uv_fs_cb)
  | [] => []
  | .uv_fs _ data cb :: rest => (data, cb) :: scheduler_calls rest
  | _ :: rest => scheduler_calls rest

/-- The number of request objects created (`new FileRequest`). -/
def requests_created : List Event → Nat
  | [] => 0
  | .new_FileRequest .. :: rest => requests_created rest + 1
  | _ :: rest => requests_created rest

/-- The buffer allocation of the call succeeds: `read` and `write` are not
asked for a negative number of bytes. -/
def Call.length_ok : Call → Bool
  | ._read _ _ length _ _ => decide (0 ≤ length)
  | ._write _ _ length _ _ => decide (0 ≤ length)
  | _ => true

/-- The reply of the scheduler to a failed synchronous call: -1, error code
34, no output. -/
def reply_failed : uv_reply := { r := -1, result := -1, ptr := .NULL, code := 34, data := [] }


/-- The number of Java exceptions raised: by `ThrowException` or by a JNI
region function. -/
def exceptions_raised : List Event → Nat
  | [] => 0
  | .ThrowException _ :: rest => exceptions_raised rest + 1
  | .ArrayIndexOutOfBoundsException :: rest => exceptions_raised rest + 1
  | _ :: rest => exceptions_raised rest

/-- The completion ids of the request objects created (`new FileRequest`). -/
def created_ids : List Event → List Int
  | [] => []
  | .new_FileRequest id _ _ :: rest => id :: created_ids rest
  | _ :: rest => created_ids rest

/-- The buffer arguments of a call are in bounds: for `read` and `write` the
region of the given offset and length lies inside the Java array (whose
length is below 2^31, as the length of every Java array). -/
def Call.in_bounds (h : Heap) : Call → Bool
  | ._read _ buffer length offset _ =>
    decide (region_ok (h.array buffer) offset length ∧ (h.array buffer).length < 2147483648)
  | ._write _ data length offset _ =>
    decide (region_ok (h.array data) offset length ∧ (h.array data).length < 2147483648)
  | _ => true

/-- The value an asynchronous call returns to Java: the immediate result `r`
of the scheduler for the 20 methods that return an `int`, NULL for readdir,
stat, fstat, lstat and readlink. -/
def Call.async_value (r : Int) : Call → JRet
  | ._readdir .. => .jobjectArray none
  | ._stat .. => .jobject .null
  | ._fstat .. => .jobject .null
  | ._lstat .. => .jobject .null
  | ._readlink .. => .jobject .null
  | _ => .jint r

/-- The immediate reply of the scheduler to a submission: a negative value. -/
def reply_negative : uv_reply := { r := -5, result := 0, ptr := .NULL, code := 0, data := [] }


/-- The number of `ArrayIndexOutOfBoundsException` raised by the JNI region
functions. -/
def region_faults : List Event → Nat
  | [] => 0
  | .ArrayIndexOutOfBoundsException :: rest => region_faults rest + 1
  | _ :: rest => region_faults rest


/-- Modelled from the spec: the scheduler contract
`completionFn(requestContext, opKind, result, auxPtr)` hands the completion
function the kind of the operation that was submitted; libuv, which is not
among the sources, records `UV_FS_X` in `req->fs_type` in its `uv_fs_x`. -/
def Call.fs_type : Call → uv_fs_type
  | ._close .. => UV_FS_CLOSE
  | ._open .. => UV_FS_OPEN
  | ._read .. => UV_FS_READ
  | ._unlink .. => UV_FS_UNLINK
  | ._write .. => UV_FS_WRITE
  | ._mkdir .. => UV_FS_MKDIR
  | ._rmdir .. => UV_FS_RMDIR
  | ._readdir .. => UV_FS_READDIR
  | ._stat .. => UV_FS_STAT
  | ._fstat .. => UV_FS_FSTAT
  | ._rename .. => UV_FS_RENAME
  | ._fsync .. => UV_FS_FSYNC
  | ._fdatasync .. => UV_FS_FDATASYNC
  | ._ftruncate .. => UV_FS_FTRUNCATE
  | ._sendfile .. => UV_FS_SENDFILE
  | ._chmod .. => UV_FS_CHMOD
  | ._utime .. => UV_FS_UTIME
  | ._futime .. => UV_FS_FUTIME
  | ._lstat .. => UV_FS_LSTAT
  | ._link .. => UV_FS_LINK
  | ._symlink .. => UV_FS_SYMLINK
  | ._readlink .. => UV_FS_READLINK
  | ._fchmod .. => UV_FS_FCHMOD
  | ._chown .. => UV_FS_CHOWN
  | ._fchown .. => UV_FS_FCHOWN

/-- The request an asynchronous `sendfile` from descriptor 2 to descriptor 1
(offset 0, length 10, completion id 7) submits. -/
def sendfile_request : FileRequest :=
  { _buffer := none, _bytes := none, _offset := 0, _id := 7, _fd := 2, _path := none }

/-- The successful completion of `sendfile_request`: 10 bytes sent. -/
def sendfile_completion : uv_fs_t :=
  { data := some sendfile_request, fs_type := UV_FS_SENDFILE, result := 10, errorno := 0,
    ptr := .NULL }


/-- The kinds that have a case in the `switch` of the success path of the
dispatcher. -/
def handled : uv_fs_type → Bool
  | UV_FS_UNKNOWN => false
  | UV_FS_CUSTOM => false
  | UV_FS_SENDFILE => false
  | _ => true

/-- The operation kind and the completion id a callback passes to Java. -/
def Event.callback_head : Event → Option (uv_fs_type × Int)
  | .callback_1arg fs_type id _ => some (fs_type, id)
  | .callback_narg fs_type id _ => some (fs_type, id)
  | _ => none

/-- The effects that release something: the scheduler cleanup, the two
`delete` of `_fs_cb` and the releases the destructor makes. -/
def Event.is_release : Event → Bool
  | .uv_fs_req_cleanup => true
  | .delete_uv_fs_t => true
  | .delete_FileRequest => true
  | .delete_jbyte => true
  | .DeleteGlobalRef _ => true
  | _ => false

/-- The effects before the first callback. -/
def before_callback : List Event → List Event
  | [] => []
  | e :: rest => if e.is_callback then [] else e :: before_callback rest

/-- The effects after the first callback. -/
def after_callback : List Event → List Event
  | [] => []
  | e :: rest => if e.is_callback then rest else after_callback rest

/-- The scheduler's output can be read by the conversion its kind asks for:
for readlink `ptr` is NULL or a NUL-terminated string, for readdir it holds
as many NUL-terminated names as the result counts. -/
def output_readable (fs_type : uv_fs_type) (result : Int) (ptr : Ptr) : Bool :=
  match fs_type with
  | UV_FS_READLINK => (NewStringUTF ptr).isSome
  | UV_FS_READDIR => (fs_cb_readdir_loop (toJint result).toNat ptr.as_chars).isSome
  | _ => true

/-- The effects consist of one callback, with the given kind and id, that
comes last and has no release before it. -/
def one_callback_last (trace : List Event) (fs_type : uv_fs_type) (id : Int) : Prop :=
  (callbacks trace).map Event.callback_head = [some (fs_type, id)] ∧
  (before_callback trace).filter Event.is_release = [] ∧
  after_callback trace = []


/-- The request an asynchronous `stat` of `/f` with completion id 7 submits. -/
def stat_request : FileRequest :=
  { _buffer := none, _bytes := none, _offset := 0, _id := 7, _fd := 0, _path := some "/f" }

/-- The successful completion of `stat_request`. -/
def stat_completion : uv_fs_t :=
  { data := some stat_request, fs_type := UV_FS_STAT, result := 0, errorno := 0,
    ptr := .statbuf [1, 2, 3] }


/-- The number of `jbyte` arrays allocated (`new jbyte[length]`). -/
def jbyte_allocations : List Event → Nat
  | [] => 0
  | .new_jbyte _ :: rest => jbyte_allocations rest + 1
  | _ :: rest => jbyte_allocations rest

/-- The number of `jbyte` arrays released (`delete[]`). -/
def jbyte_releases : List Event → Nat
  | [] => 0
  | .delete_jbyte :: rest => jbyte_releases rest + 1
  | _ :: rest => jbyte_releases rest

/-- The number of global references released (`DeleteGlobalRef`). -/
def global_ref_releases : List Event → Nat
  | [] => 0
  | .DeleteGlobalRef _ :: rest => global_ref_releases rest + 1
  | _ :: rest => global_ref_releases rest

/-- The number of global references taken (`NewGlobalRef`). -/
def global_ref_acquisitions : List Event → Nat
  | [] => 0
  | .NewGlobalRef _ :: rest => global_ref_acquisitions rest + 1
  | _ :: rest => global_ref_acquisitions rest

/-- The request an asynchronous `write` on descriptor 3 with completion id 7
submits. -/
def write_request : FileRequest :=
  { _buffer := none, _bytes := none, _offset := 0, _id := 7, _fd := 3, _path := none }

/-- The successful completion of `write_request`: 3 bytes written. -/
def write_completion : uv_fs_t :=
  { data := some write_request, fs_type := UV_FS_WRITE, result := 3, errorno := 0,
    ptr := .NULL }

/-- The test a caller makes to tell an error delivery: the callback is the
array-shaped one and the first element of its payload is the sentinel. -/
def looks_like_error : Event → Bool
  | .callback_narg _ _ (first :: _) => decide (first = _error)
  | _ => false

/-- The conversions of the scheduler's output pointer. -/
def Event.is_conversion : Event → Bool
  | .Stats_create _ => true
  | .NewStringUTF _ => true
  | _ => false

/-- The conversions among the effects, in order. -/
def conversions (trace : List Event) : List Event := trace.filter Event.is_conversion

/-- The effects before the first scheduler cleanup. -/
def before_cleanup : List Event → List Event
  | [] => []
  | .uv_fs_req_cleanup :: _ => []
  | e :: rest => e :: before_cleanup rest

/-- The outcome of a synchronous call that converts the scheduler's output
whatever the scheduler returned: the conversion `conv` is performed exactly
once, before the scheduler cleanup, which runs; the converted `value` is the
value returned; an error is raised exactly when `r` is negative. -/
def converts_then_cleans (s : Step JObject) (conv : Event) (value : JObject) (r : Int) : Prop :=
  conversions s.trace = [conv] ∧ conversions (before_cleanup s.trace) = [conv] ∧
  Event.uv_fs_req_cleanup ∈ s.trace ∧ s.val = some value ∧
  (thrown s.trace).length = if r < 0 then 1 else 0

/-- The completion of `short_read_request` with an error. -/
def failed_read_completion : uv_fs_t :=
  { data := some short_read_request, fs_type := UV_FS_READ, result := -1, errorno := 34,
    ptr := .NULL }

/-- The reply of the scheduler to a successful synchronous `stat`: 0, with the
output pointer at a stat buffer. -/
def stat_reply : uv_reply :=
  { r := 0, result := 0, ptr := .statbuf [1, 2, 3], code := 0, data := [] }

/-! ## Shared lemmas -/

section Lemmas

theorem submitted_append (a b : List Event) :
    submitted (a ++ b) = submitted a ++ submitted b := by
  induction a with
  | nil => rfl
  | cons e rest ih =>
    cases e <;> simp [submitted, ih]
    rename_i call data cb
    cases data <;> cases cb <;> simp [submitted, ih]

theorem submitted_GetByteArrayRegion (h : Heap) (array : Nat) (start len : Int)
    (buf : List jbyte) : submitted (GetByteArrayRegion h array start len buf).2 = [] := by
  unfold GetByteArrayRegion
  split <;> rfl

theorem submitted_SetByteArrayRegion (h : Heap) (array : Nat) (start len : Int)
    (buf : List jbyte) : submitted (SetByteArrayRegion h array start len buf).2 = [] := by
  unfold SetByteArrayRegion
  split <;> rfl

/-- The asynchronous branch of `read`, when the scratch buffer can be
allocated. -/
theorem read_async (h : Heap) (junk : List jbyte) (uv : uv_reply) (fd : Int) (buffer : Nat)
    (length offset position c : Int) (hc : c ≠ 0) (hlen : 0 ≤ toJint length) :
    Java_net_java_libuv_Files__1read h junk uv fd buffer length offset position c =
      { val := some uv.r, heap := h,
        trace := [.new_uv_fs_t, .new_FileRequest c fd none,
            .NewGlobalRef (.byteArray buffer), .new_jbyte (toJint length)] ++
          (GetByteArrayRegion h buffer (toJint offset) (toJint length)
            (new_jbyte junk (toJint length).toNat)).2 ++
          [.uv_fs (.uv_fs_read fd length position)
            (some { _buffer := some buffer,
                    _bytes := some (GetByteArrayRegion h buffer (toJint offset) (toJint length)
                      (new_jbyte junk (toJint length).toNat)).1,
                    _offset := toJint offset, _id := c, _fd := fd, _path := none })
            ._fs_cb] } := by
  have hlt : ¬ toJint length < 0 := by omega
  simp [Java_net_java_libuv_Files__1read, hc, FileRequest.construct, FileRequest.get_bytes, hlt]

/-- The asynchronous branch of `read`, when the allocation of the scratch
buffer fails: nothing is submitted. -/
theorem read_async_bad_alloc (h : Heap) (junk : List jbyte) (uv : uv_reply) (fd : Int)
    (buffer : Nat) (length offset position c : Int) (hc : c ≠ 0) (hlen : toJint length < 0) :
    (Java_net_java_libuv_Files__1read h junk uv fd buffer length offset position c).val = none ∧
    submitted
      (Java_net_java_libuv_Files__1read h junk uv fd buffer length offset position c).trace
      = [] := by
  simp [Java_net_java_libuv_Files__1read, hc, FileRequest.construct, FileRequest.get_bytes, hlen,
    Step.abort, submitted]

/-- The requests `write` submits. -/
theorem write_submitted (h : Heap) (junk : List jbyte) (uv : uv_reply) (fd : Int) (data : Nat)
    (length offset position c : Int) (hc : c ≠ 0) :
    submitted
      (Java_net_java_libuv_Files__1write h junk uv fd data length offset position c).trace
      = if length < 0 then []
        else [{ _buffer := none, _bytes := none, _offset := 0, _id := c, _fd := fd,
                _path := none }] := by
  unfold Java_net_java_libuv_Files__1write
  split
  · simp [Step.abort, submitted]
  · simp [hc, FileRequest.construct, submitted_append, submitted_GetByteArrayRegion, submitted]

/-- A request that an asynchronous call hands to the scheduler carries the
completion id of the call, the path the call requests and its descriptor. -/
theorem submitted_fields (call : Call) (h : Heap) (junk : List jbyte) (uv : uv_reply)
    (c : Int) (request : FileRequest) (hc : c ≠ 0)
    (hsub : request ∈ submitted (call.run h junk uv c).trace) :
    request._id = c ∧ request._path = call.path ∧ request._fd = call.fd := by
  cases call
  case _read fd buffer length offset position =>
    simp only [Call.run, Step.map] at hsub
    by_cases hlen : toJint length < 0
    · rw [(read_async_bad_alloc h junk uv fd buffer length offset position c hc hlen).2] at hsub
      simp at hsub
    · rw [read_async h junk uv fd buffer length offset position c hc (by omega)] at hsub
      simp [submitted_append, submitted_GetByteArrayRegion, submitted] at hsub
      subst hsub
      simp [Call.path, Call.fd]
  case _write fd data length offset position =>
    simp only [Call.run, Step.map] at hsub
    rw [write_submitted h junk uv fd data length offset position c hc] at hsub
    split at hsub
    · simp at hsub
    · simp at hsub
      subst hsub
      simp [Call.path, Call.fd]
  all_goals
    simp [Call.run, Step.map, hc, submitted, FileRequest.construct,
      Java_net_java_libuv_Files__1close__JII, Java_net_java_libuv_Files__1open,
      Java_net_java_libuv_Files__1unlink, Java_net_java_libuv_Files__1mkdir,
      Java_net_java_libuv_Files__1rmdir, Java_net_java_libuv_Files__1readdir,
      Java_net_java_libuv_Files__1stat, Java_net_java_libuv_Files__1fstat,
      Java_net_java_libuv_Files__1rename, Java_net_java_libuv_Files__1fsync,
      Java_net_java_libuv_Files__1fdatasync, Java_net_java_libuv_Files__1ftruncate,
      Java_net_java_libuv_Files__1sendfile, Java_net_java_libuv_Files__1chmod,
      Java_net_java_libuv_Files__1utime, Java_net_java_libuv_Files__1futime,
      Java_net_java_libuv_Files__1lstat, Java_net_java_libuv_Files__1link,
      Java_net_java_libuv_Files__1symlink, Java_net_java_libuv_Files__1readlink,
      Java_net_java_libuv_Files__1fchmod, Java_net_java_libuv_Files__1chown,
      Java_net_java_libuv_Files__1fchown] at hsub
    subst hsub
    simp [Call.path, Call.fd]

theorem toJint_of_range (x : Int) (hlo : -2147483648 ≤ x) (hhi : x < 2147483648) :
    toJint x = x := by
  unfold toJint
  omega

theorem filled_id (request : FileRequest) (data : List jbyte) :
    (request.filled data)._id = request._id := rfl

theorem filled_path (request : FileRequest) (data : List jbyte) :
    (request.filled data)._path = request._path := rfl

theorem filled_fd (request : FileRequest) (data : List jbyte) :
    (request.filled data)._fd = request._fd := rfl

/-- The destructor performs no callback. -/
theorem callbacks_destruct (request : FileRequest) : callbacks request.destruct = [] := by
  unfold FileRequest.destruct callbacks
  cases request._bytes <;> cases request._buffer <;> cases request._path <;> rfl

/-- The error path of the dispatcher, for any request object. -/
theorem fs_cb_error (h : Heap) (req : uv_fs_t) (request : FileRequest)
    (hdata : req.data = some request) (herr : req.result = -1) :
    (_fs_cb h req).val = some () ∧ (_fs_cb h req).heap = h ∧
    callbacks (_fs_cb h req).trace =
      [.callback_narg req.fs_type request._id
        [.Integer (-1), .Throwable (NewException req.errorno none none request._path)]] := by
  have hd := callbacks_destruct request
  simp only [callbacks] at hd
  simp [_fs_cb, hdata, herr, FileCallbacks.fs_cb_errorno, callbacks, List.filter_append, hd,
    Event.is_callback, _error]

/-- The success path of the dispatcher on the kinds that are answered with the
single-argument callback and no converted value. -/
theorem fs_cb_plain (h : Heap) (req : uv_fs_t) (request : FileRequest)
    (hdata : req.data = some request) (hok : req.result ≠ -1)
    (hkind : req.fs_type ∈ [UV_FS_CLOSE, UV_FS_RENAME, UV_FS_UNLINK, UV_FS_RMDIR, UV_FS_MKDIR,
      UV_FS_FTRUNCATE, UV_FS_FSYNC, UV_FS_FDATASYNC, UV_FS_LINK, UV_FS_SYMLINK, UV_FS_CHMOD,
      UV_FS_FCHMOD, UV_FS_CHOWN, UV_FS_FCHOWN, UV_FS_UTIME, UV_FS_FUTIME]) :
    (_fs_cb h req).val = some () ∧ (_fs_cb h req).heap = h ∧
    callbacks (_fs_cb h req).trace =
      [.callback_1arg req.fs_type request._id
        (if req.fs_type = UV_FS_CLOSE then .Integer request._fd
         else if req.fs_type = UV_FS_UTIME ∨ req.fs_type = UV_FS_FUTIME then .Long req.result
         else .null)] := by
  have hd := callbacks_destruct request
  simp only [callbacks] at hd
  obtain ⟨data, fs_type, result, errorno, ptr⟩ := req
  simp only at hdata hok hkind ⊢
  subst hdata
  simp only [List.mem_cons, List.mem_singleton, List.not_mem_nil, or_false] at hkind
  rcases hkind with k | k | k | k | k | k | k | k | k | k | k | k | k | k | k | k <;>
    subst k <;>
    simp [_fs_cb, hok, FileCallbacks.fs_cb, callbacks, List.filter_append, hd,
      Event.is_callback]

end Lemmas

/-! ## The error path of the dispatcher -/

/-- C1: for every asynchronous call (any of the 25 operations, completion id
`c`), every completion of its request with the scheduler result -1 and every
operation kind the scheduler reports, `_fs_cb` returns, leaves the Java heap
alone and performs exactly one callback: the array-shaped one, with the
reported kind, the id `c` and the 2-element payload made of the sentinel
`Integer` -1 and the error built from the error code of the request and the
path the call requested (none for a descriptor-based call). -/
theorem error_completion_delivers_sentinel_and_error (call : Call) (h0 : Heap)
    (junk : List jbyte) (uv : uv_reply) (c : Int) (sub : FileRequest) (data : List jbyte)
    (h : Heap) (req : uv_fs_t) (hc : c ≠ 0)
    (hsub : sub ∈ submitted (call.run h0 junk uv c).trace)
    (hdata : req.data = some (sub.filled data)) (herr : req.result = -1) :
    (_fs_cb h req).val = some () ∧ (_fs_cb h req).heap = h ∧
    callbacks (_fs_cb h req).trace =
      [.callback_narg req.fs_type c
        [.Integer (-1), .Throwable (NewException req.errorno none none call.path)]] := by
  obtain ⟨hid, hpath, -⟩ := submitted_fields call h0 junk uv c sub hc hsub
  have key := fs_cb_error h req (sub.filled data) hdata herr
  rw [filled_id, filled_path, hid, hpath] at key
  exact key

/-- C1 at a failed asynchronous `open` of `/missing`. -/
theorem error_completion_delivers_sentinel_and_error_witness :
    missing_open_request ∈
      submitted ((Call._open "/missing" 0 0).run [] [] reply_zero 7).trace ∧
    callbacks (_fs_cb [] missing_open_completion).trace =
      [.callback_narg UV_FS_OPEN 7
        [.Integer (-1), .Throwable (NewException 34 none none (some "/missing"))]] :=
  ⟨by simp [Call.run, Step.map, Java_net_java_libuv_Files__1open, FileRequest.construct,
      submitted, missing_open_request],
    (error_completion_delivers_sentinel_and_error (Call._open "/missing" 0 0) []
      [] reply_zero 7 missing_open_request [] [] missing_open_completion
      (by decide)
      (by simp [Call.run, Step.map, Java_net_java_libuv_Files__1open, FileRequest.construct,
        submitted, missing_open_request])
      rfl rfl).2.2⟩

/-- C2: evaluation at a failed `open` of `/missing`.  The error the dispatcher
delivers for the asynchronous call was built with no operation name (a NULL
`syscall` argument), while the error the synchronous branch raises for the
same failure was built with the name `uv_fs_open`. -/
theorem async_error_has_no_operation_name :
    callbacks (_fs_cb [] missing_open_completion).trace =
      [.callback_narg UV_FS_OPEN 7
        [.Integer (-1),
         .Throwable { errorno := 34, syscall := none, msg := none, path := some "/missing" }]] ∧
    thrown (Java_net_java_libuv_Files__1open []
        { r := -1, result := -1, ptr := .NULL, code := 34, data := [] } "/missing" 0 0 0).trace =
      [{ errorno := 34, syscall := some "uv_fs_open", msg := none, path := some "/missing" }] := by
  constructor
  · exact (fs_cb_error [] missing_open_completion missing_open_request rfl rfl).2.2
  · simp [Java_net_java_libuv_Files__1open, thrown, NewException]

/-! ## The success path of the dispatcher -/

/-- C3, as stated, fails: a successful asynchronous `utime` (result 0) is
answered with the single-argument callback whose payload is the boxed `Long`
0, not null. -/
theorem utime_payload_is_not_null :
    utime_request ∈ submitted ((Call._utime "/f" 1 2).run [] [] reply_zero 7).trace ∧
    callbacks (_fs_cb [] utime_completion).trace = [.callback_1arg UV_FS_UTIME 7 (.Long 0)] ∧
    callbacks (_fs_cb [] utime_completion).trace ≠ [.callback_1arg UV_FS_UTIME 7 .null] := by
  have key := (fs_cb_plain [] utime_completion utime_request rfl (by decide) (by decide)).2.2
  refine ⟨?_, ?_, ?_⟩
  · simp [Call.run, Step.map, Java_net_java_libuv_Files__1utime, FileRequest.construct,
      submitted, utime_request]
  · simpa [utime_completion, utime_request] using key
  · rw [key]
    simp [utime_completion]

/-- C3, amended: for every asynchronous call with completion id `c`, every
successful completion of its request (result other than -1) whose operation
kind is one of close, rename, unlink, rmdir, mkdir, ftruncate, fsync,
fdatasync, link, symlink, chmod, fchmod, chown, fchown, utime, futime is
answered with exactly one callback, the single-argument one, with that kind
and the id `c`; the payload is null, except that for close it is the
descriptor stored in the request at submission and for utime and futime it is
the scheduler's result as a boxed `Long`. -/
theorem plain_completion_payload (call : Call) (h0 : Heap) (junk : List jbyte)
    (uv : uv_reply) (c : Int) (sub : FileRequest) (data : List jbyte) (h : Heap)
    (req : uv_fs_t) (hc : c ≠ 0) (hsub : sub ∈ submitted (call.run h0 junk uv c).trace)
    (hdata : req.data = some (sub.filled data)) (hok : req.result ≠ -1)
    (hkind : req.fs_type ∈ [UV_FS_CLOSE, UV_FS_RENAME, UV_FS_UNLINK, UV_FS_RMDIR, UV_FS_MKDIR,
      UV_FS_FTRUNCATE, UV_FS_FSYNC, UV_FS_FDATASYNC, UV_FS_LINK, UV_FS_SYMLINK, UV_FS_CHMOD,
      UV_FS_FCHMOD, UV_FS_CHOWN, UV_FS_FCHOWN, UV_FS_UTIME, UV_FS_FUTIME]) :
    (_fs_cb h req).val = some () ∧ (_fs_cb h req).heap = h ∧
    callbacks (_fs_cb h req).trace =
      [.callback_1arg req.fs_type c
        (if req.fs_type = UV_FS_CLOSE then .Integer call.fd
         else if req.fs_type = UV_FS_UTIME ∨ req.fs_type = UV_FS_FUTIME then .Long req.result
         else .null)] := by
  obtain ⟨hid, -, hfd⟩ := submitted_fields call h0 junk uv c sub hc hsub
  have key := fs_cb_plain h req (sub.filled data) hdata hok hkind
  rw [filled_id, filled_fd, hid, hfd] at key
  exact key

/-- C3, amended, at an asynchronous `close` of descriptor 5: the payload is
the descriptor 5, not the scheduler's result 0. -/
theorem plain_completion_payload_witness :
    close_request ∈ submitted ((Call._close 5).run [] [] reply_zero 7).trace ∧
    callbacks (_fs_cb [] close_completion).trace = [.callback_1arg UV_FS_CLOSE 7 (.Integer 5)] :=
  ⟨by simp [Call.run, Step.map, Java_net_java_libuv_Files__1close__JII,
      FileRequest.construct, submitted, close_request],
    by
      simpa [close_completion, Call.fd] using
        (plain_completion_payload (Call._close 5) [] [] reply_zero 7 close_request [] []
          close_completion (by decide)
          (by simp [Call.run, Step.map, Java_net_java_libuv_Files__1close__JII,
            FileRequest.construct, submitted, close_request])
          rfl (by decide) (by decide)).2.2⟩

/-- C4: for every asynchronous `open` of path `p` with completion id `c`,
exactly one request is submitted, and every successful completion of it whose
result is a descriptor `fd` (an `int` other than -1) is answered with exactly
one callback: the array-shaped one, with the kind open, the id `c` and the
2-element payload made of the boxed `fd` and the path `p`. -/
theorem open_completion_payload (h0 : Heap) (uv : uv_reply) (p : String)
    (flags mode c : Int) (sub : FileRequest) (data : List jbyte) (h : Heap) (req : uv_fs_t)
    (hc : c ≠ 0)
    (hsub : sub ∈ submitted (Java_net_java_libuv_Files__1open h0 uv p flags mode c).trace)
    (hdata : req.data = some (sub.filled data)) (hkind : req.fs_type = UV_FS_OPEN)
    (hok : req.result ≠ -1) (hlo : -2147483648 ≤ req.result) (hhi : req.result < 2147483648) :
    submitted (Java_net_java_libuv_Files__1open h0 uv p flags mode c).trace = [sub] ∧
    (_fs_cb h req).val = some () ∧ (_fs_cb h req).heap = h ∧
    callbacks (_fs_cb h req).trace =
      [.callback_narg UV_FS_OPEN c [.Integer req.result, .str p]] := by
  have hd := callbacks_destruct (sub.filled data)
  simp only [callbacks] at hd
  simp [Java_net_java_libuv_Files__1open, hc, FileRequest.construct, submitted] at hsub
  subst hsub
  obtain ⟨rdata, fs_type, result, errorno, ptr⟩ := req
  simp only at hdata hkind hok hlo hhi ⊢
  subst hdata hkind
  refine ⟨by simp [Java_net_java_libuv_Files__1open, hc, FileRequest.construct, submitted],
    ?_, ?_, ?_⟩ <;>
    simp [_fs_cb, hok, FileCallbacks.fs_cb, callbacks, List.filter_append, hd,
      Event.is_callback, toJint_of_range result hlo hhi, jstring_obj, filled_id, filled_path]

/-- C4 at an asynchronous `open` of `/etc/hosts` completed with descriptor 9. -/
theorem open_completion_payload_witness :
    hosts_open_request ∈
      submitted (Java_net_java_libuv_Files__1open [] reply_zero "/etc/hosts" 0 0 7).trace ∧
    callbacks (_fs_cb [] hosts_open_completion).trace =
      [.callback_narg UV_FS_OPEN 7 [.Integer 9, .str "/etc/hosts"]] :=
  ⟨by simp [Java_net_java_libuv_Files__1open, FileRequest.construct, submitted,
      hosts_open_request],
    (open_completion_payload [] reply_zero "/etc/hosts" 0 0 7 hosts_open_request [] []
      hosts_open_completion (by decide)
      (by simp [Java_net_java_libuv_Files__1open, FileRequest.construct, submitted,
        hosts_open_request])
      rfl rfl (by decide) (by decide) (by decide)).2.2.2⟩

theorem overwrite_eq (xs ys : List jbyte) (k : Nat) (hfit : k + ys.length ≤ xs.length) :
    overwrite xs k ys = xs.take k ++ ys ++ xs.drop (k + ys.length) := by
  unfold overwrite
  have htake : ys.take (xs.length - k) = ys := List.take_of_length_le (by omega)
  rw [htake]

theorem array_nil_of_ge (h : Heap) (b : Nat) (hb : ¬ b < h.length) : h.array b = [] := by
  unfold Heap.array
  have hnone : h[b]? = none := List.getElem?_eq_none (by omega)
  simp [List.getD, hnone]

theorem array_set (h : Heap) (b : Nat) (xs : List jbyte) :
    Heap.array (h.set b xs) b = if b < h.length then xs else [] := by
  split
  · rename_i hb
    simp [Heap.array, List.getD, List.getElem?_set, hb]
  · rename_i hb
    exact array_nil_of_ge _ b (by simpa using hb)

theorem new_jbyte_length (junk : List jbyte) (n : Nat) : (new_jbyte junk n).length = n := by
  simp [new_jbyte]

/-- The bytes the asynchronous `read` snapshots at submission, for a region
inside the array. -/
theorem get_region (h : Heap) (junk : List jbyte) (b o n : Nat)
    (hbound : o + n ≤ (h.array b).length) :
    (GetByteArrayRegion h b o n (new_jbyte junk n)).1 = ((h.array b).drop o).take n ∧
    (GetByteArrayRegion h b o n (new_jbyte junk n)).2 = [] := by
  have hok : region_ok (h.array b) o n := by
    refine ⟨by omega, by omega, ?_⟩
    exact_mod_cast hbound
  have hlen : (((h.array b).drop o).take n).length = n := by
    simp
    omega
  simp only [GetByteArrayRegion, hok, if_true, Int.toNat_ofNat, and_true]
  rw [overwrite_eq _ _ 0 (by rw [hlen, new_jbyte_length]; omega)]
  simp [hlen, new_jbyte_length]

/-- Storing at most as many bytes as the array region holds. -/
theorem set_region (h : Heap) (b o r : Nat) (buf : List jbyte)
    (hbound : o + r ≤ (h.array b).length) (hbuf : r ≤ buf.length) :
    Heap.array (SetByteArrayRegion h b o r buf).1 b =
      (h.array b).take o ++ buf.take r ++ (h.array b).drop (o + r) ∧
    (SetByteArrayRegion h b o r buf).2 = [] := by
  have hok : region_ok (h.array b) o r := by
    refine ⟨by omega, by omega, ?_⟩
    exact_mod_cast hbound
  have hlen : (buf.take r).length = r := by
    simp
    omega
  simp only [SetByteArrayRegion, hok, if_true, Int.toNat_ofNat, and_true]
  rw [array_set, overwrite_eq _ _ o (by rw [hlen]; omega), hlen]
  split
  · rfl
  · rename_i hb
    have hnil := array_nil_of_ge h b hb
    rw [hnil] at hbound ⊢
    simp at hbound
    obtain ⟨rfl, rfl⟩ := hbound
    simp

theorem splice_getElem? (xs d : List jbyte) (o k : Nat) (hfit : o + d.length ≤ xs.length) :
    (xs.take o ++ d ++ xs.drop (o + d.length))[k]? =
      if o ≤ k ∧ k < o + d.length then d[k - o]? else xs[k]? := by
  have htake : (xs.take o).length = o := by
    simp
    omega
  by_cases h1 : k < o
  · have hcond : ¬ (o ≤ k ∧ k < o + d.length) := by omega
    rw [if_neg hcond, List.append_assoc, List.getElem?_append_left (by omega),
      List.getElem?_take_of_lt h1]
  · by_cases h2 : k < o + d.length
    · have hcond : o ≤ k ∧ k < o + d.length := by omega
      rw [if_pos hcond, List.append_assoc, List.getElem?_append_right (by omega), htake,
        List.getElem?_append_left (by omega)]
    · have hcond : ¬ (o ≤ k ∧ k < o + d.length) := by omega
      rw [if_neg hcond, List.getElem?_append_right (by simp; omega), List.getElem?_drop]
      congr 1
      simp
      omega

/-- The dispatcher on a successful read. -/
theorem fs_cb_read (h : Heap) (request : FileRequest) (result errorno : Int) (ptr : Ptr)
    (b : Nat) (bytes : List jbyte) (hbuf : request._buffer = some b)
    (hbytes : request._bytes = some bytes) (hne : result ≠ -1) :
    _fs_cb h ⟨some request, UV_FS_READ, result, errorno, ptr⟩ =
      { val := some (),
        heap := (SetByteArrayRegion h b request._offset (toJint result) bytes).1,
        trace := (SetByteArrayRegion h b request._offset (toJint result) bytes).2 ++
          [.callback_narg UV_FS_READ request._id [.Long result, .byteArray b]] ++
          [.uv_fs_req_cleanup, .delete_uv_fs_t, .delete_FileRequest] ++ request.destruct } := by
  simp [_fs_cb, hne, FileCallbacks.fs_cb, FileRequest.set_bytes, hbuf, hbytes]


/-- The asynchronous read, from submission to the heap after completion. -/
theorem read_lifecycle (h : Heap) (junk : List jbyte) (uv : uv_reply) (fd : Int)
    (b : Nat) (n o pos c : Int) (sub : FileRequest) (d : List jbyte) (h1 : Heap)
    (req : uv_fs_t) (hc : c ≠ 0) (ho : 0 ≤ o) (hn : 0 ≤ n)
    (hbound : o + n ≤ (h.array b).length) (hjava : (h.array b).length < 2147483648)
    (hsub : sub ∈ submitted
      (Java_net_java_libuv_Files__1read h junk uv fd b n o pos c).trace)
    (hr : (d.length : Int) ≤ n) (hsame : h1.array b = h.array b)
    (hdata : req.data = some (sub.filled d)) (hkind : req.fs_type = UV_FS_READ)
    (hres : req.result = d.length) :
    (Java_net_java_libuv_Files__1read h junk uv fd b n o pos c).val = some uv.r ∧
    (Java_net_java_libuv_Files__1read h junk uv fd b n o pos c).heap = h ∧
    submitted (Java_net_java_libuv_Files__1read h junk uv fd b n o pos c).trace = [sub] ∧
    (_fs_cb h1 req).val = some () ∧
    callbacks (_fs_cb h1 req).trace =
      [.callback_narg UV_FS_READ c [.Long d.length, .byteArray b]] ∧
    Heap.array (_fs_cb h1 req).heap b =
      (h.array b).take o.toNat ++ d ++ (h.array b).drop (o.toNat + d.length) := by
  lift o to ℕ using ho
  lift n to ℕ using hn
  have hbound' : o + n ≤ (h.array b).length := by exact_mod_cast hbound
  have hr' : d.length ≤ n := by exact_mod_cast hr
  have hoj : toJint (o : Int) = (o : Int) := toJint_of_range _ (by omega) (by omega)
  have hnj : toJint (n : Int) = (n : Int) := toJint_of_range _ (by omega) (by omega)
  have hrj : toJint (d.length : Int) = (d.length : Int) :=
    toJint_of_range _ (by omega) (by omega)
  have hrun := read_async h junk uv fd b n o pos c hc (by rw [hnj]; omega)
  obtain ⟨hget, hgev⟩ := get_region h junk b o n hbound'
  rw [hoj, hnj, Int.toNat_ofNat, hget, hgev] at hrun
  rw [hrun] at hsub ⊢
  simp only [List.append_nil, submitted, List.cons_append, List.nil_append, List.mem_singleton]
    at hsub
  subst hsub
  have hsnap : (((h.array b).drop o).take n).length = n := by
    simp
    omega
  have hfill : uv_fs_read_fill (((h.array b).drop o).take n) d =
      d ++ (((h.array b).drop o).take n).drop d.length := by
    unfold uv_fs_read_fill
    rw [overwrite_eq _ _ 0 (by omega)]
    simp
  obtain ⟨hset, hsev⟩ := set_region h1 b o d.length
    (d ++ (((h.array b).drop o).take n).drop d.length) (by rw [hsame]; omega) (by simp)
  have htake : (d ++ (((h.array b).drop o).take n).drop d.length).take d.length = d := by
    simp
  rw [htake, hsame] at hset
  obtain ⟨rdata, fs_type, result, errorno, ptr⟩ := req
  simp only at hdata hkind hres
  subst hdata hkind hres
  have hne : ((d.length : Int) ≠ -1) := by omega
  have hcb := fs_cb_read h1
    (FileRequest.filled ⟨some b, some (((h.array b).drop o).take n), (o : Int), c, fd, none⟩ d)
    (d.length : Int) errorno ptr b (d ++ (((h.array b).drop o).take n).drop d.length) rfl
    (by simp only [FileRequest.filled, Option.map_some', hfill]) hne
  rw [hrj, filled_id] at hcb
  have hoff : (FileRequest.filled
      ⟨some b, some (((h.array b).drop o).take n), (o : Int), c, fd, none⟩ d)._offset
      = (o : Int) := rfl
  rw [hoff, hsev] at hcb
  rw [hcb]
  refine ⟨rfl, rfl, rfl, rfl, ?_, ?_⟩
  · simp only [callbacks, List.nil_append, List.cons_append, List.filter_cons,
      Event.is_callback, if_true, List.filter_nil]
    have hd := callbacks_destruct
      (FileRequest.filled ⟨some b, some (((h.array b).drop o).take n), (o : Int), c, fd, none⟩ d)
    simp only [callbacks] at hd
    simp [hd]
  · simp only [Int.toNat_ofNat]
    exact hset

/-! ## Reading -/

/-- C5: an asynchronous `read` into the caller's array `b` (content `B`) at
offset `o`, length `n`, inside the array, returns without changing the heap
and submits one request; its successful completion with the `r` bytes `d`
(`r` at most `n`) performs exactly one callback, the array-shaped one with the
payload made of the boxed `r` and the caller's array `b` itself, and leaves in
that array `d` at the positions from `o` to `o + r` and the content `B`
everywhere else. -/
theorem read_completion_writes_prefix (h : Heap) (junk : List jbyte) (uv : uv_reply)
    (fd : Int) (b : Nat) (n o pos c : Int) (sub : FileRequest) (d : List jbyte) (h1 : Heap)
    (req : uv_fs_t) (k : Nat) (hc : c ≠ 0) (ho : 0 ≤ o) (hn : 0 ≤ n)
    (hbound : o + n ≤ (h.array b).length) (hjava : (h.array b).length < 2147483648)
    (hsub : sub ∈ submitted
      (Java_net_java_libuv_Files__1read h junk uv fd b n o pos c).trace)
    (hr : (d.length : Int) ≤ n) (hsame : h1.array b = h.array b)
    (hdata : req.data = some (sub.filled d)) (hkind : req.fs_type = UV_FS_READ)
    (hres : req.result = d.length) :
    (Java_net_java_libuv_Files__1read h junk uv fd b n o pos c).val = some uv.r ∧
    (Java_net_java_libuv_Files__1read h junk uv fd b n o pos c).heap = h ∧
    submitted (Java_net_java_libuv_Files__1read h junk uv fd b n o pos c).trace = [sub] ∧
    (_fs_cb h1 req).val = some () ∧
    callbacks (_fs_cb h1 req).trace =
      [.callback_narg UV_FS_READ c [.Long d.length, .byteArray b]] ∧
    Heap.array (_fs_cb h1 req).heap b =
      (h.array b).take o.toNat ++ d ++ (h.array b).drop (o.toNat + d.length) ∧
    (Heap.array (_fs_cb h1 req).heap b)[k]? =
      if o.toNat ≤ k ∧ k < o.toNat + d.length then d[k - o.toNat]? else (h.array b)[k]? := by
  obtain ⟨hval, hheap, hsubm, hcval, hcb, harr⟩ :=
    read_lifecycle h junk uv fd b n o pos c sub d h1 req hc ho hn hbound hjava hsub hr hsame
      hdata hkind hres
  refine ⟨hval, hheap, hsubm, hcval, hcb, harr, ?_⟩
  rw [harr]
  apply splice_getElem?
  have hfit : (o.toNat : Int) + d.length ≤ (h.array b).length := by
    rw [Int.toNat_of_nonneg ho]
    omega
  exact_mod_cast hfit

/-- C5 at a short read: 3 bytes asked at offset 1 of the array 1, 2, 3, 4, 5,
the 2 bytes 9, 8 read; the array is left as 1, 9, 8, 4, 5. -/
theorem read_completion_writes_prefix_witness :
    submitted (Java_net_java_libuv_Files__1read five_bytes [] reply_zero 3 0 3 1 0 7).trace =
      [short_read_request] ∧
    callbacks (_fs_cb five_bytes short_read_completion).trace =
      [.callback_narg UV_FS_READ 7 [.Long 2, .byteArray 0]] ∧
    Heap.array (_fs_cb five_bytes short_read_completion).heap 0 = [1, 9, 8, 4, 5] := by
  have key := read_completion_writes_prefix five_bytes [] reply_zero 3 0 3 1 0 7
    short_read_request [9, 8] five_bytes short_read_completion 0 (by decide) (by decide)
    (by decide) (by decide) (by decide) (by decide) (by decide) rfl rfl rfl rfl
  exact ⟨key.2.2.1, key.2.2.2.2.1, key.2.2.2.2.2.1⟩

/-- C8: evaluation at a short read.  With 3 bytes asked at offset 1 of the
array 1, 2, 3, 4, 5 and the 2 bytes 9, 8 read, the synchronous branch copies
all 3 bytes of its scratch buffer, so the position after the bytes read
receives the indeterminate content of the scratch buffer (here 0), while the
completion of the asynchronous read with the same inputs and outcome copies
only the 2 bytes read and keeps the 4: the two arrays differ. -/
theorem sync_read_differs_from_async_on_short_read :
    Heap.array
      (Java_net_java_libuv_Files__1read five_bytes [0, 0, 0] short_read_reply 3 0 3 1 0 0).heap
      0 = [1, 9, 8, 0, 5] ∧
    submitted
      (Java_net_java_libuv_Files__1read five_bytes [0, 0, 0] short_read_reply 3 0 3 1 0 7).trace
      = [short_read_request] ∧
    Heap.array (_fs_cb five_bytes short_read_completion).heap 0 = [1, 9, 8, 4, 5] := by
  refine ⟨by decide, by decide, by decide⟩

theorem written_append (a b : List Event) : written (a ++ b) = written a ++ written b := by
  induction a with
  | nil => rfl
  | cons e rest ih =>
    cases e <;> simp [written, ih]
    rename_i call data cb
    cases call <;> simp [written, ih]

theorem written_GetByteArrayRegion (h : Heap) (array : Nat) (start len : Int)
    (buf : List jbyte) : written (GetByteArrayRegion h array start len buf).2 = [] := by
  unfold GetByteArrayRegion
  split <;> rfl

theorem written_construct (id fd : Int) (path : Option String) :
    written (FileRequest.construct id fd path).2 = [] := by
  cases path <;> rfl

theorem written_throw (r : Int) (e : ErrorValue) : written (throw_if_negative r e) = [] := by
  unfold throw_if_negative
  split <;> rfl

/-- What `write` hands to the scheduler, in either mode, for a region inside
the array. -/
theorem write_region (h : Heap) (junk : List jbyte) (uv : uv_reply) (fd : Int) (a : Nat)
    (N O : Nat) (pos c : Int) (hbound : O + N ≤ (h.array a).length)
    (hjava : (h.array a).length < 2147483648) :
    (Java_net_java_libuv_Files__1write h junk uv fd a N O pos c).val = some uv.r ∧
    (Java_net_java_libuv_Files__1write h junk uv fd a N O pos c).heap = h ∧
    written (Java_net_java_libuv_Files__1write h junk uv fd a N O pos c).trace =
      [((h.array a).drop O).take N] := by
  have hoj : toJint (O : Int) = (O : Int) := toJint_of_range _ (by omega) (by omega)
  have hnj : toJint (N : Int) = (N : Int) := toJint_of_range _ (by omega) (by omega)
  obtain ⟨hget, hgev⟩ := get_region h junk a O N hbound
  have hlt : ¬ ((N : Int) < 0) := by omega
  simp only [Java_net_java_libuv_Files__1write, if_neg hlt, hoj, hnj, Int.toNat_ofNat, hget,
    hgev]
  by_cases hc : c = 0
  · simp [hc, written, written_append, written_throw]
  · simp [hc, written, written_append, written_construct]

/-- The array after a synchronous `read` that fills the whole scratch
buffer. -/
theorem read_sync_full (h : Heap) (junk : List jbyte) (uv : uv_reply) (fd : Int) (b : Nat)
    (N O : Nat) (pos : Int) (hbound : O + N ≤ (h.array b).length)
    (hjava : (h.array b).length < 2147483648) (hfull : uv.data.length = N) :
    (Java_net_java_libuv_Files__1read h junk uv fd b N O pos 0).val = some uv.r ∧
    Heap.array (Java_net_java_libuv_Files__1read h junk uv fd b N O pos 0).heap b =
      (h.array b).take O ++ uv.data ++ (h.array b).drop (O + N) := by
  have hoj : toJint (O : Int) = (O : Int) := toJint_of_range _ (by omega) (by omega)
  have hnj : toJint (N : Int) = (N : Int) := toJint_of_range _ (by omega) (by omega)
  have hlt : ¬ ((N : Int) < 0) := by omega
  have hfill : uv_fs_read_fill (new_jbyte junk N) uv.data = uv.data := by
    unfold uv_fs_read_fill
    rw [overwrite_eq _ _ 0 (by rw [new_jbyte_length]; omega)]
    simp [hfull, new_jbyte_length]
  obtain ⟨hset, -⟩ := set_region h b O N uv.data hbound (by omega)
  have htake : uv.data.take N = uv.data := List.take_of_length_le (by omega)
  rw [htake] at hset
  have hzero : ¬ ((0 : Int) ≠ 0) := by decide
  unfold Java_net_java_libuv_Files__1read
  rw [if_neg hzero, if_neg hlt, hoj, hnj, Int.toNat_ofNat, hfill]
  exact ⟨rfl, hset⟩

theorem slice_splice (xs d : List jbyte) (O : Nat) (hfit : O + d.length ≤ xs.length) :
    ((xs.take O ++ d ++ xs.drop (O + d.length)).drop O).take d.length = d := by
  have htake : (xs.take O).length = O := by
    simp
    omega
  rw [List.append_assoc, List.drop_append_of_le_length (by omega),
    List.drop_of_length_le (by omega), List.nil_append, List.take_append_of_le_length (by omega),
    List.take_of_length_le (by omega)]

/-- C7: write then read.  For a data array `a` and a buffer `b` that both hold
the region of offset `O` and length `N`: `write`, in either mode, leaves the
heap alone and hands the scheduler exactly the bytes of `a` from `O` to
`O + N`; against a scheduler that returns on the read the bytes `stored` it
was handed by the write, the region from `O` to `O + N` of the buffer equals
that region of the data array after a synchronous `read` and after the
completion of an asynchronous `read`. -/
theorem write_then_read_round_trip (h : Heap) (junk_w junk_r : List jbyte)
    (uv_w uv_r : uv_reply) (fd : Int) (a b : Nat) (N O pos cw cr : Int)
    (stored : List jbyte) (sub : FileRequest) (req : uv_fs_t)
    (hO : 0 ≤ O) (hN : 0 ≤ N)
    (hD : O + N ≤ (h.array a).length) (hDj : (h.array a).length < 2147483648)
    (hB : O + N ≤ (h.array b).length) (hBj : (h.array b).length < 2147483648)
    (hstored : stored ∈
      written (Java_net_java_libuv_Files__1write h junk_w uv_w fd a N O pos cw).trace)
    (hreply : uv_r.data = stored) (hcr : cr ≠ 0)
    (hsub : sub ∈ submitted
      (Java_net_java_libuv_Files__1read h junk_r uv_r fd b N O pos cr).trace)
    (hdata : req.data = some (sub.filled stored)) (hkind : req.fs_type = UV_FS_READ)
    (hres : req.result = stored.length) :
    stored = ((h.array a).drop O.toNat).take N.toNat ∧
    (Java_net_java_libuv_Files__1write h junk_w uv_w fd a N O pos cw).heap = h ∧
    ((Heap.array (Java_net_java_libuv_Files__1read h junk_r uv_r fd b N O pos 0).heap b).drop
      O.toNat).take N.toNat = ((h.array a).drop O.toNat).take N.toNat ∧
    ((Heap.array (_fs_cb h req).heap b).drop O.toNat).take N.toNat =
      ((h.array a).drop O.toNat).take N.toNat := by
  lift O to ℕ using hO
  lift N to ℕ using hN
  have hD' : O + N ≤ (h.array a).length := by exact_mod_cast hD
  have hB' : O + N ≤ (h.array b).length := by exact_mod_cast hB
  obtain ⟨-, hwheap, hwritten⟩ := write_region h junk_w uv_w fd a N O pos cw hD' hDj
  rw [hwritten, List.mem_singleton] at hstored
  have hlen : stored.length = N := by
    rw [hstored]
    simp
    omega
  simp only [Int.toNat_ofNat]
  refine ⟨hstored, hwheap, ?_, ?_⟩
  · obtain ⟨-, harr⟩ := read_sync_full h junk_r uv_r fd b N O pos hB' hBj
      (by rw [hreply, hlen])
    rw [harr, hreply, ← hstored]
    have key := slice_splice (h.array b) stored O (by omega)
    rw [hlen] at key
    exact key
  · obtain ⟨-, -, -, -, -, harr⟩ := read_lifecycle h junk_r uv_r fd b N O pos cr sub stored h
      req hcr (by omega) (by omega) hB hBj hsub (by rw [hlen]) rfl hdata hkind hres
    rw [harr, ← hstored, Int.toNat_ofNat]
    have key := slice_splice (h.array b) stored O (by omega)
    rw [hlen] at key ⊢
    exact key

/-- C7 at the data 1, 2, 3, 4, 5 and a buffer of zeros, offset 1, length 3:
a synchronous write hands 2, 3, 4 to the scheduler; read back, the buffer is
0, 2, 3, 4, 0 in both modes. -/
theorem write_then_read_round_trip_witness :
    written
      (Java_net_java_libuv_Files__1write data_and_buffer [] reply_zero 3 0 3 1 0 0).trace =
      [[2, 3, 4]] ∧
    Heap.array
      (Java_net_java_libuv_Files__1read data_and_buffer [] round_trip_reply 3 1 3 1 0 0).heap 1 =
      [0, 2, 3, 4, 0] ∧
    Heap.array (_fs_cb data_and_buffer round_trip_completion).heap 1 = [0, 2, 3, 4, 0] ∧
    ((Heap.array (_fs_cb data_and_buffer round_trip_completion).heap 1).drop 1).take 3 =
      [2, 3, 4] :=
  ⟨by decide, by decide, by decide,
    (write_then_read_round_trip data_and_buffer [] [] reply_zero round_trip_reply 3 0 1 3 1 0 0
      7 [2, 3, 4] round_trip_request round_trip_completion (by decide) (by decide) (by decide)
      (by decide) (by decide) (by decide) (by decide) rfl (by decide) (by decide) rfl rfl
      rfl).2.2.2⟩

/-! ## Readdir -/

theorem strlen_name (name : List Char) (rest : List Char) (hnul : NUL ∉ name) :
    strlen (name ++ NUL :: rest) = some name.length := by
  induction name with
  | nil => simp [strlen]
  | cons c cs ih =>
    have hc : c ≠ NUL := fun hEq => hnul (by simp [hEq])
    have hcs : NUL ∉ cs := fun hmem => hnul (List.mem_cons_of_mem _ hmem)
    simp [strlen, hc, ih hcs]

theorem readdir_loop_eq (count : Nat) (mem : List Char) :
    readdir_loop count mem = fs_cb_readdir_loop count mem := by
  induction count generalizing mem with
  | zero => rfl
  | succ todo ih =>
    unfold readdir_loop fs_cb_readdir_loop
    cases NewStringUTF (.chars mem) <;> cases strlen mem <;> simp [ih]

theorem fs_cb_readdir_loop_pack (names : List String) (tail : List Char)
    (hnul : ∀ name ∈ names, NUL ∉ name.data) :
    fs_cb_readdir_loop names.length (pack_names names ++ tail) = some (names.map .str) := by
  induction names with
  | nil => rfl
  | cons name rest ih =>
    have hname : NUL ∉ name.data := hnul name (List.mem_cons_self _ _)
    have hrest : ∀ n ∈ rest, NUL ∉ n.data := fun n hn => hnul n (List.mem_cons_of_mem _ hn)
    have hlen := strlen_name name.data (pack_names rest ++ tail) hname
    have happ : pack_names (name :: rest) ++ tail = name.data ++ NUL :: (pack_names rest ++ tail) := by
      simp [pack_names]
    have hdrop : (name.data ++ NUL :: (pack_names rest ++ tail)).drop (name.data.length + 1) =
        pack_names rest ++ tail := by
      rw [List.drop_append_eq_append_drop]
      simp
    rw [List.length_cons, happ]
    unfold fs_cb_readdir_loop
    simp only [NewStringUTF, Ptr.as_chars, hlen, Option.map_some', hdrop, ih hrest]
    simp

/-- The dispatcher on a successful readdir. -/
theorem fs_cb_readdir (h : Heap) (request : FileRequest) (result errorno : Int) (ptr : Ptr)
    (hne : result ≠ -1) :
    callbacks (_fs_cb h ⟨some request, UV_FS_READDIR, result, errorno, ptr⟩).trace =
      match fs_cb_readdir_loop (toJint result).toNat ptr.as_chars with
      | none => []
      | some names => [.callback_narg UV_FS_READDIR request._id names] := by
  have hd := callbacks_destruct request
  simp only [callbacks] at hd
  simp only [_fs_cb, hne, if_false, FileCallbacks.fs_cb]
  cases fs_cb_readdir_loop (toJint result).toNat ptr.as_chars <;>
    simp [Step.abort, callbacks, Event.is_callback, List.filter_append, hd]

/-- C6: for every list of NUL-free names, with the packed buffer of the names
(followed by any further memory `tail`, so in particular by nothing or by one
more NUL) and their number as the count, the synchronous `readdir` returns
the names, in order, and raises nothing, and the dispatcher delivers the same
names in one array-shaped callback; for every buffer and count the two loops
compute the same result, and the synchronous call returns a list of names
exactly when the dispatcher delivers that list. -/
theorem readdir_splits_packed_names (names : List String) (tail : List Char) (h : Heap)
    (uv : uv_reply) (path : String) (flags : Int) (request : FileRequest) (errorno : Int)
    (mem : List Char) (count : Nat) (uv2 : uv_reply) (names2 : List JObject)
    (hnul : ∀ name ∈ names, NUL ∉ name.data) (hcount : names.length < 2147483648)
    (hr : uv.r = names.length) (hres : uv.result = names.length)
    (hptr : uv.ptr = .chars (pack_names names ++ tail))
    (hr2 : 0 ≤ uv2.r) (hres2 : uv2.result = uv2.r) :
    (Java_net_java_libuv_Files__1readdir h uv path flags 0).val =
      some (some (names.map .str)) ∧
    thrown (Java_net_java_libuv_Files__1readdir h uv path flags 0).trace = [] ∧
    callbacks (_fs_cb h ⟨some request, UV_FS_READDIR, uv.result, errorno, uv.ptr⟩).trace =
      [.callback_narg UV_FS_READDIR request._id (names.map .str)] ∧
    readdir_loop count mem = fs_cb_readdir_loop count mem ∧
    ((Java_net_java_libuv_Files__1readdir h uv2 path flags 0).val = some (some names2) ↔
      callbacks (_fs_cb h ⟨some request, UV_FS_READDIR, uv2.result, errorno, uv2.ptr⟩).trace =
        [.callback_narg UV_FS_READDIR request._id names2]) := by
  have hj : toJint (names.length : Int) = (names.length : Int) :=
    toJint_of_range _ (by omega) (by omega)
  have hloop := fs_cb_readdir_loop_pack names tail hnul
  have hzero : ¬ ((0 : Int) ≠ 0) := by decide
  have hge : uv.r ≥ 0 := by omega
  have hne : uv.result ≠ -1 := by omega
  have hne2 : uv2.result ≠ -1 := by omega
  have hge2 : uv2.r ≥ 0 := hr2
  refine ⟨?_, ?_, ?_, readdir_loop_eq count mem, ?_⟩
  · simp only [Java_net_java_libuv_Files__1readdir, if_neg hzero, if_pos hge, hres, hj,
      Int.toNat_ofNat, hptr, Ptr.as_chars, readdir_loop_eq, hloop]
  · simp only [Java_net_java_libuv_Files__1readdir, if_neg hzero, if_pos hge, hres, hj,
      Int.toNat_ofNat, hptr, Ptr.as_chars, readdir_loop_eq, hloop]
    rfl
  · rw [fs_cb_readdir h request uv.result errorno uv.ptr hne, hres, hj, Int.toNat_ofNat, hptr]
    simp only [Ptr.as_chars, hloop]
  · rw [fs_cb_readdir h request uv2.result errorno uv2.ptr hne2]
    simp only [Java_net_java_libuv_Files__1readdir, if_neg hzero, if_pos hge2, readdir_loop_eq]
    cases fs_cb_readdir_loop (toJint uv2.result).toNat uv2.ptr.as_chars <;>
      simp [Step.abort]

/-- C6 at a directory with the entries a, b, c (one more NUL after the last
name) and at an empty directory. -/
theorem readdir_splits_packed_names_witness :
    (Java_net_java_libuv_Files__1readdir [] abc_reply "/d" 0 0).val =
      some (some [.str "a", .str "b", .str "c"]) ∧
    callbacks (_fs_cb [] ⟨some readdir_request, UV_FS_READDIR, 3, 0, abc_reply.ptr⟩).trace =
      [.callback_narg UV_FS_READDIR 7 [.str "a", .str "b", .str "c"]] ∧
    (Java_net_java_libuv_Files__1readdir [] reply_zero "/d" 0 0).val = some (some []) ∧
    thrown (Java_net_java_libuv_Files__1readdir [] reply_zero "/d" 0 0).trace = [] :=
  have key := readdir_splits_packed_names ["a", "b", "c"] [NUL] [] abc_reply "/d" 0
    readdir_request 0 [] 0 reply_zero [] (by decide) (by decide) rfl rfl rfl (by decide) rfl
  ⟨key.1, key.2.2.1, by decide, by decide⟩

/-! ## The synchronous mode -/

theorem thrown_append (a b : List Event) : thrown (a ++ b) = thrown a ++ thrown b := by
  induction a with
  | nil => rfl
  | cons e rest ih => cases e <;> simp [thrown, ih]

theorem scheduler_calls_append (a b : List Event) :
    scheduler_calls (a ++ b) = scheduler_calls a ++ scheduler_calls b := by
  induction a with
  | nil => rfl
  | cons e rest ih => cases e <;> simp [scheduler_calls, ih]

theorem thrown_throw_if_negative (r : Int) (e : ErrorValue) :
    thrown (throw_if_negative r e) = if r < 0 then [e] else [] := by
  unfold throw_if_negative
  split <;> rfl

theorem scheduler_calls_throw (r : Int) (e : ErrorValue) :
    scheduler_calls (throw_if_negative r e) = [] := by
  unfold throw_if_negative
  split <;> rfl

theorem effects_SetByteArrayRegion (h : Heap) (array : Nat) (start len : Int)
    (buf : List jbyte) :
    thrown (SetByteArrayRegion h array start len buf).2 = [] ∧
    scheduler_calls (SetByteArrayRegion h array start len buf).2 = [] ∧
    requests_created (SetByteArrayRegion h array start len buf).2 = 0 := by
  unfold SetByteArrayRegion
  split <;> exact ⟨rfl, rfl, rfl⟩

theorem effects_GetByteArrayRegion (h : Heap) (array : Nat) (start len : Int)
    (buf : List jbyte) :
    thrown (GetByteArrayRegion h array start len buf).2 = [] ∧
    scheduler_calls (GetByteArrayRegion h array start len buf).2 = [] ∧
    requests_created (GetByteArrayRegion h array start len buf).2 = 0 := by
  unfold GetByteArrayRegion
  split <;> exact ⟨rfl, rfl, rfl⟩

/-- The operation name of the error a failed synchronous call raises, for
every operation but readlink: `uv_fs_` followed by the name of the
operation. -/
theorem sync_error_name (call : Call) (h : Heap) (junk : List jbyte) (uv : uv_reply)
    (hlen : call.length_ok = true) (hfail : uv.r = -1) (hnot : call.name ≠ "readlink") :
    (thrown (call.run h junk uv 0).trace).map (fun e => e.syscall) =
      [some ("uv_fs_" ++ call.name)] := by
  have hneg : uv.r < 0 := by omega
  have hge : ¬ uv.r ≥ 0 := by omega
  cases call
  case _read fd buffer length offset position =>
    have hl : ¬ length < 0 := by simpa [Call.length_ok] using hlen
    obtain ⟨h1, -, -⟩ := effects_SetByteArrayRegion h buffer (toJint offset) (toJint length)
      (uv_fs_read_fill (new_jbyte junk length.toNat) uv.data)
    simp only [Call.run, Step.map, Java_net_java_libuv_Files__1read, ne_eq, not_true_eq_false,
      if_false, hl, thrown_append, h1, thrown_throw_if_negative, hneg, if_true]
    simp [thrown, NewException, Call.name]
  case _write fd data length offset position =>
    have hl : ¬ length < 0 := by simpa [Call.length_ok] using hlen
    obtain ⟨h1, -, -⟩ := effects_GetByteArrayRegion h data (toJint offset) (toJint length)
      (new_jbyte junk length.toNat)
    simp only [Call.run, Step.map, Java_net_java_libuv_Files__1write, ne_eq, not_true_eq_false,
      if_false, hl, thrown_append, h1, thrown_throw_if_negative, hneg, if_true]
    simp [thrown, NewException, Call.name]
  case _readlink path => simp [Call.name] at hnot
  all_goals
    simp only [Call.run, Step.map, Java_net_java_libuv_Files__1close__JII,
      Java_net_java_libuv_Files__1open, Java_net_java_libuv_Files__1readdir,
      Java_net_java_libuv_Files__1unlink, Java_net_java_libuv_Files__1mkdir,
      Java_net_java_libuv_Files__1rmdir,
      Java_net_java_libuv_Files__1stat, Java_net_java_libuv_Files__1fstat,
      Java_net_java_libuv_Files__1rename, Java_net_java_libuv_Files__1fsync,
      Java_net_java_libuv_Files__1fdatasync, Java_net_java_libuv_Files__1ftruncate,
      Java_net_java_libuv_Files__1sendfile, Java_net_java_libuv_Files__1chmod,
      Java_net_java_libuv_Files__1utime, Java_net_java_libuv_Files__1futime,
      Java_net_java_libuv_Files__1lstat, Java_net_java_libuv_Files__1link,
      Java_net_java_libuv_Files__1symlink,
      Java_net_java_libuv_Files__1fchmod, Java_net_java_libuv_Files__1chown,
      Java_net_java_libuv_Files__1fchown, ne_eq, not_true_eq_false, if_false, thrown_append,
      thrown_throw_if_negative, hneg, hge, hfail, if_true]
    simp [thrown, NewException, Call.name]

/-- C10: evaluation at a failed synchronous `readlink` of `/link`.  The error
raised carries the operation name `uv_fs_readklink`, which is not `uv_fs_`
followed by the name of the operation. -/
theorem sync_readlink_error_name_is_misspelt :
    thrown ((Call._readlink "/link").run [] [] reply_failed 0).trace =
      [{ errorno := 34, syscall := some "uv_fs_readklink", msg := none,
         path := some "/link" }] ∧
    (some "uv_fs_readklink" : Option String) ≠
      some ("uv_fs_" ++ (Call._readlink "/link").name) := by
  constructor
  · simp [Call.run, Step.map, Java_net_java_libuv_Files__1readlink, reply_failed, NewStringUTF,
      throw_if_negative, thrown, NewException]
  · decide

/-! ## The asynchronous mode -/

theorem exceptions_raised_append (a b : List Event) :
    exceptions_raised (a ++ b) = exceptions_raised a + exceptions_raised b := by
  induction a with
  | nil => simp [exceptions_raised]
  | cons e rest ih =>
    cases e <;> simp [exceptions_raised, ih]
    all_goals omega

theorem created_ids_append (a b : List Event) :
    created_ids (a ++ b) = created_ids a ++ created_ids b := by
  induction a with
  | nil => rfl
  | cons e rest ih => cases e <;> simp [created_ids, ih]

/-- A region inside the array, with the conversions to `jsize` undone. -/
theorem region_as_nat (array : List jbyte) (offset length : Int)
    (hok : region_ok array offset length) (hjava : array.length < 2147483648) :
    ∃ o n : Nat, offset = o ∧ length = n ∧ o + n ≤ array.length ∧
      toJint offset = o ∧ toJint length = n := by
  obtain ⟨ho, hn, hb⟩ := hok
  lift offset to ℕ using ho
  lift length to ℕ using hn
  refine ⟨offset, length, rfl, rfl, by exact_mod_cast hb, ?_, ?_⟩ <;>
    exact toJint_of_range _ (by omega) (by omega)

/-- C11: every call in asynchronous mode (completion id `c` other than 0)
whose buffer arguments are in bounds, whatever the scheduler returns
immediately (`uv.r`, negative values included), creates exactly one request
object, carrying the id `c`, calls the scheduler exactly once, with that
request attached and `_fs_cb` as completion function, raises no exception,
leaves the heap alone and returns: the scheduler's immediate result for the
methods that return an `int`, NULL for the others. -/
theorem async_call_submits_and_returns (call : Call) (h : Heap) (junk : List jbyte)
    (uv : uv_reply) (c : Int) (hc : c ≠ 0) (hin : call.in_bounds h = true) :
    (call.run h junk uv c).val = some (call.async_value uv.r) ∧
    (call.run h junk uv c).heap = h ∧
    created_ids (call.run h junk uv c).trace = [c] ∧
    (scheduler_calls (call.run h junk uv c).trace).map
      (fun s => (s.1.map (fun request => request._id), s.2)) = [(some c, uv_fs_cb._fs_cb)] ∧
    exceptions_raised (call.run h junk uv c).trace = 0 := by
  cases call
  case _read fd buffer length offset position =>
    simp only [Call.in_bounds, decide_eq_true_eq] at hin
    obtain ⟨o, n, rfl, rfl, hb, hoj, hnj⟩ := region_as_nat _ offset length hin.1 hin.2
    obtain ⟨hget, hgev⟩ := get_region h junk buffer o n hb
    have hrun := read_async h junk uv fd buffer n o position c hc (by rw [hnj]; omega)
    rw [hoj, hnj, Int.toNat_ofNat, hget, hgev] at hrun
    simp only [Call.run, Step.map, hrun]
    simp [Call.async_value, created_ids, scheduler_calls, exceptions_raised]
  case _write fd data length offset position =>
    simp only [Call.in_bounds, decide_eq_true_eq] at hin
    obtain ⟨o, n, rfl, rfl, hb, hoj, hnj⟩ := region_as_nat _ offset length hin.1 hin.2
    obtain ⟨hget, hgev⟩ := get_region h junk data o n hb
    have hlt : ¬ ((n : Int) < 0) := by omega
    simp only [Call.run, Step.map, Java_net_java_libuv_Files__1write, if_neg hlt, hoj, hnj,
      Int.toNat_ofNat, hget, hgev, ne_eq, hc, not_false_eq_true, if_true]
    simp [Call.async_value, created_ids, scheduler_calls, exceptions_raised,
      FileRequest.construct]
  all_goals
    simp [Call.run, Step.map, hc, Call.async_value, created_ids, scheduler_calls,
      exceptions_raised, FileRequest.construct,
      Java_net_java_libuv_Files__1close__JII, Java_net_java_libuv_Files__1open,
      Java_net_java_libuv_Files__1unlink, Java_net_java_libuv_Files__1mkdir,
      Java_net_java_libuv_Files__1rmdir, Java_net_java_libuv_Files__1readdir,
      Java_net_java_libuv_Files__1stat, Java_net_java_libuv_Files__1fstat,
      Java_net_java_libuv_Files__1rename, Java_net_java_libuv_Files__1fsync,
      Java_net_java_libuv_Files__1fdatasync, Java_net_java_libuv_Files__1ftruncate,
      Java_net_java_libuv_Files__1sendfile, Java_net_java_libuv_Files__1chmod,
      Java_net_java_libuv_Files__1utime, Java_net_java_libuv_Files__1futime,
      Java_net_java_libuv_Files__1lstat, Java_net_java_libuv_Files__1link,
      Java_net_java_libuv_Files__1symlink, Java_net_java_libuv_Files__1readlink,
      Java_net_java_libuv_Files__1fchmod, Java_net_java_libuv_Files__1chown,
      Java_net_java_libuv_Files__1fchown]

/-- C11 at an asynchronous `read` of 3 bytes at offset 1 of a 5-byte array to
which the scheduler answers -5 at once: the call returns -5 and raises
nothing. -/
theorem async_call_submits_and_returns_witness :
    ((Call._read 3 0 3 1 0).run five_bytes [] reply_negative 7).val = some (.jint (-5)) ∧
    created_ids ((Call._read 3 0 3 1 0).run five_bytes [] reply_negative 7).trace = [7] ∧
    exceptions_raised ((Call._read 3 0 3 1 0).run five_bytes [] reply_negative 7).trace = 0 :=
  have key := async_call_submits_and_returns (Call._read 3 0 3 1 0) five_bytes []
    reply_negative 7 (by decide) (by decide)
  ⟨key.1, key.2.2.1, key.2.2.2.2⟩

/-! ## The bounds of the buffer arguments -/

theorem region_faults_append (a b : List Event) :
    region_faults (a ++ b) = region_faults a + region_faults b := by
  induction a with
  | nil => simp [region_faults]
  | cons e rest ih =>
    cases e <;> simp [region_faults, ih]
    omega

theorem region_faults_throw (r : Int) (e : ErrorValue) :
    region_faults (throw_if_negative r e) = 0 := by
  unfold throw_if_negative
  split <;> rfl

theorem get_outside (h : Heap) (array : Nat) (start len : Int) (buf : List jbyte)
    (hout : ¬ region_ok (h.array array) start len) :
    GetByteArrayRegion h array start len buf = (buf, [.ArrayIndexOutOfBoundsException]) := by
  simp [GetByteArrayRegion, hout]

theorem set_outside (h : Heap) (array : Nat) (start len : Int) (buf : List jbyte)
    (hout : ¬ region_ok (h.array array) start len) :
    SetByteArrayRegion h array start len buf = (h, [.ArrayIndexOutOfBoundsException]) := by
  simp [SetByteArrayRegion, hout]

/-- C12, as stated, fails: a synchronous `write` and a synchronous `read` of
3 bytes at offset 4 of a 5-byte array, a region that leaves the array, both
call the scheduler. -/
theorem out_of_bounds_call_reaches_scheduler :
    ¬ region_ok (five_bytes.array 0) 4 3 ∧
    scheduler_calls
      (Java_net_java_libuv_Files__1write five_bytes [] reply_zero 3 0 3 4 0 0).trace =
      [(none, uv_fs_cb.NULL)] ∧
    scheduler_calls
      (Java_net_java_libuv_Files__1read five_bytes [] reply_zero 3 0 3 4 0 0).trace =
      [(none, uv_fs_cb.NULL)] := by
  refine ⟨by decide, by decide, by decide⟩

/-- C12, amended: `read` and `write` make no bounds test of their own.  For
every call of either, in either mode, with offset and length in the `int`
range and a region that is not inside the caller's array: when the length is
not negative the JNI region copy raises `ArrayIndexOutOfBoundsException`
once, the call leaves the heap as it was and returns the scheduler's value,
and the scheduler read or write is issued all the same, once; when the length
is negative the allocation of the scratch buffer fails, the call does not
return, nothing is submitted and the heap is as it was. -/
theorem out_of_bounds_call_keeps_buffer (h : Heap) (junk : List jbyte) (uv : uv_reply)
    (fd : Int) (b : Nat) (length offset position c : Int)
    (hlo : -2147483648 ≤ offset) (hhi : offset < 2147483648)
    (hllo : -2147483648 ≤ length) (hlhi : length < 2147483648)
    (hout : ¬ region_ok (h.array b) offset length) :
    (Java_net_java_libuv_Files__1read h junk uv fd b length offset position c).heap = h ∧
    (Java_net_java_libuv_Files__1read h junk uv fd b length offset position c).val =
      (if length < 0 then none else some uv.r) ∧
    (scheduler_calls
      (Java_net_java_libuv_Files__1read h junk uv fd b length offset position c).trace).length =
      (if length < 0 then 0 else 1) ∧
    region_faults
      (Java_net_java_libuv_Files__1read h junk uv fd b length offset position c).trace =
      (if length < 0 then 0 else 1) ∧
    (Java_net_java_libuv_Files__1write h junk uv fd b length offset position c).heap = h ∧
    (Java_net_java_libuv_Files__1write h junk uv fd b length offset position c).val =
      (if length < 0 then none else some uv.r) ∧
    (scheduler_calls
      (Java_net_java_libuv_Files__1write h junk uv fd b length offset position c).trace).length =
      (if length < 0 then 0 else 1) ∧
    region_faults
      (Java_net_java_libuv_Files__1write h junk uv fd b length offset position c).trace =
      (if length < 0 then 0 else 1) := by
  have hoj : toJint offset = offset := toJint_of_range _ hlo hhi
  have hlj : toJint length = length := toJint_of_range _ hllo hlhi
  have hread : (Java_net_java_libuv_Files__1read h junk uv fd b length offset position c).heap
        = h ∧
      (Java_net_java_libuv_Files__1read h junk uv fd b length offset position c).val =
        (if length < 0 then none else some uv.r) ∧
      (scheduler_calls (Java_net_java_libuv_Files__1read h junk uv fd b length offset position
        c).trace).length = (if length < 0 then 0 else 1) ∧
      region_faults (Java_net_java_libuv_Files__1read h junk uv fd b length offset position
        c).trace = (if length < 0 then 0 else 1) := by
    by_cases hc : c = 0
    · subst hc
      by_cases hl : length < 0
      · simp [Java_net_java_libuv_Files__1read, hl, Step.abort, scheduler_calls, region_faults]
      · simp [Java_net_java_libuv_Files__1read, hl, hoj, hlj, set_outside _ _ _ _ _ hout,
          scheduler_calls, scheduler_calls_append, scheduler_calls_throw, region_faults,
          region_faults_append, region_faults_throw]
    · by_cases hl : length < 0
      · simp [Java_net_java_libuv_Files__1read, hc, hl, hoj, hlj, FileRequest.construct,
          FileRequest.get_bytes, Step.abort, scheduler_calls, region_faults]
      · rw [read_async h junk uv fd b length offset position c hc (by rw [hlj]; omega), hoj,
          hlj, get_outside _ _ _ _ _ hout]
        simp [hl, scheduler_calls, region_faults]
  have hwrite : (Java_net_java_libuv_Files__1write h junk uv fd b length offset position
        c).heap = h ∧
      (Java_net_java_libuv_Files__1write h junk uv fd b length offset position c).val =
        (if length < 0 then none else some uv.r) ∧
      (scheduler_calls (Java_net_java_libuv_Files__1write h junk uv fd b length offset position
        c).trace).length = (if length < 0 then 0 else 1) ∧
      region_faults (Java_net_java_libuv_Files__1write h junk uv fd b length offset position
        c).trace = (if length < 0 then 0 else 1) := by
    by_cases hl : length < 0
    · simp [Java_net_java_libuv_Files__1write, hl, Step.abort, scheduler_calls, region_faults]
    · by_cases hc : c = 0
      · subst hc
        simp [Java_net_java_libuv_Files__1write, hl, hoj, hlj, get_outside _ _ _ _ _ hout,
          scheduler_calls, scheduler_calls_append, scheduler_calls_throw, region_faults,
          region_faults_append, region_faults_throw]
      · simp [Java_net_java_libuv_Files__1write, hl, hc, hoj, hlj, get_outside _ _ _ _ _ hout,
          scheduler_calls, region_faults, FileRequest.construct]
  exact ⟨hread.1, hread.2.1, hread.2.2.1, hread.2.2.2, hwrite.1, hwrite.2.1, hwrite.2.2.1,
    hwrite.2.2.2⟩

/-- C12, amended, at a synchronous `read` of 3 bytes at offset 4 of a 5-byte
array: the array is unchanged, one exception is raised by the region copy,
and the scheduler was called. -/
theorem out_of_bounds_call_keeps_buffer_witness :
    ¬ region_ok (five_bytes.array 0) 4 3 ∧
    (Java_net_java_libuv_Files__1read five_bytes [] short_read_reply 3 0 3 4 0 0).heap =
      five_bytes ∧
    region_faults
      (Java_net_java_libuv_Files__1read five_bytes [] short_read_reply 3 0 3 4 0 0).trace = 1 ∧
    (scheduler_calls
      (Java_net_java_libuv_Files__1read five_bytes [] short_read_reply 3 0 3 4 0 0).trace).length
      = 1 :=
  have key := out_of_bounds_call_keeps_buffer five_bytes [] short_read_reply 3 0 3 4 0 0
    (by decide) (by decide) (by decide) (by decide) (by decide)
  ⟨by decide, key.1, key.2.2.2.1, key.2.2.1⟩

/-! ## The kinds the dispatcher handles -/

theorem abort_not_mem_SetByteArrayRegion (h : Heap) (array : Nat) (start len : Int)
    (buf : List jbyte) (what : String) :
    Event.abort what ∉ (SetByteArrayRegion h array start len buf).2 := by
  unfold SetByteArrayRegion
  split <;> simp

/-- The success path of the dispatcher does not reach its `default` branch on
the kind of any call but sendfile. -/
theorem other_kinds_are_handled (call : Call) (h : Heap) (request : FileRequest) (result : Int)
    (ptr : Ptr) (hnot : call.name ≠ "sendfile") :
    Event.abort "Unhandled eio response" ∉
      (FileCallbacks.fs_cb h request call.fs_type result ptr).trace := by
  cases call
  case _sendfile out_fd in_fd offset length => simp [Call.name] at hnot
  case _read fd buffer length offset position =>
    simp only [Call.fs_type, FileCallbacks.fs_cb, FileRequest.set_bytes]
    cases request._buffer <;> cases request._bytes <;>
      simp [Step.abort, abort_not_mem_SetByteArrayRegion]
  case _readlink path =>
    simp only [Call.fs_type, FileCallbacks.fs_cb]
    cases NewStringUTF ptr <;> simp [Step.abort]
  case _readdir path flags =>
    simp only [Call.fs_type, FileCallbacks.fs_cb]
    cases fs_cb_readdir_loop (toJint result).toNat ptr.as_chars <;> simp [Step.abort]
  all_goals simp [Call.fs_type, FileCallbacks.fs_cb]

/-- C13: evaluation at an asynchronous `sendfile` (completion id 7) that
completes with 10 bytes sent.  The kind the scheduler reports for it,
`UV_FS_SENDFILE`, has no case in the success path of the dispatcher: the
`default` branch is reached, its `assert` fails, no callback is delivered and
`_fs_cb` does not return. -/
theorem sendfile_completion_is_unhandled :
    submitted (Java_net_java_libuv_Files__1sendfile [] reply_zero 1 2 0 10 7).trace =
      [sendfile_request] ∧
    (Call._sendfile 1 2 0 10).fs_type = sendfile_completion.fs_type ∧
    (_fs_cb [] sendfile_completion).val = none ∧
    (_fs_cb [] sendfile_completion).trace = [.abort "Unhandled eio response"] ∧
    callbacks (_fs_cb [] sendfile_completion).trace = [] := by
  refine ⟨by decide, by decide, by decide, by decide, by decide⟩

/-! ## One callback, then the releases -/

theorem before_callback_append (a b : List Event) (hcb : callbacks a ≠ []) :
    before_callback (a ++ b) = before_callback a := by
  induction a with
  | nil => simp [callbacks] at hcb
  | cons e rest ih =>
    by_cases he : e.is_callback = true
    · simp [before_callback, he]
    · have hrest : callbacks rest ≠ [] := by
        simpa [callbacks, List.filter_cons, he] using hcb
      simp [before_callback, he, ih hrest]

theorem after_callback_append (a b : List Event) (hcb : callbacks a ≠ []) :
    after_callback (a ++ b) = after_callback a ++ b := by
  induction a with
  | nil => simp [callbacks] at hcb
  | cons e rest ih =>
    by_cases he : e.is_callback = true
    · simp [after_callback, he]
    · have hrest : callbacks rest ≠ [] := by
        simpa [callbacks, List.filter_cons, he] using hcb
      simp [after_callback, he, ih hrest]

theorem callbacks_append (a b : List Event) :
    callbacks (a ++ b) = callbacks a ++ callbacks b := by
  simp [callbacks]

theorem one_callback_last_single (cb : Event) (fs_type : uv_fs_type) (id : Int)
    (hhead : cb.callback_head = some (fs_type, id)) :
    one_callback_last [cb] fs_type id := by
  cases cb <;> simp [Event.callback_head] at hhead <;>
    simp [one_callback_last, callbacks, Event.is_callback, Event.callback_head,
      before_callback, after_callback, hhead]

theorem one_callback_last_cons (e : Event) (trace : List Event) (fs_type : uv_fs_type)
    (id : Int) (hcb : e.is_callback = false) (hrel : e.is_release = false)
    (hrest : one_callback_last trace fs_type id) :
    one_callback_last (e :: trace) fs_type id := by
  obtain ⟨h1, h2, h3⟩ := hrest
  refine ⟨?_, ?_, ?_⟩
  · simpa [callbacks, List.filter_cons, hcb] using h1
  · simpa [before_callback, hcb, List.filter_cons, hrel] using h2
  · simpa [after_callback, hcb] using h3

/-- The success overload of `fs_cb` on a handled kind whose output can be
read. -/
theorem fs_cb_one_callback (h : Heap) (request : FileRequest) (fs_type : uv_fs_type)
    (result : Int) (ptr : Ptr) (hhandled : handled fs_type = true)
    (hread : fs_type = UV_FS_READ →
      request._buffer.isSome = true ∧ request._bytes.isSome = true)
    (hout : output_readable fs_type result ptr = true) :
    (FileCallbacks.fs_cb h request fs_type result ptr).val = some () ∧
    one_callback_last (FileCallbacks.fs_cb h request fs_type result ptr).trace fs_type
      request._id := by
  cases fs_type
  case UV_FS_UNKNOWN => simp [handled] at hhandled
  case UV_FS_CUSTOM => simp [handled] at hhandled
  case UV_FS_SENDFILE => simp [handled] at hhandled
  case UV_FS_READ =>
    obtain ⟨hb, hy⟩ := hread rfl
    obtain ⟨buffer, hbuffer⟩ := Option.isSome_iff_exists.mp hb
    obtain ⟨bytes, hbytes⟩ := Option.isSome_iff_exists.mp hy
    simp only [FileCallbacks.fs_cb, FileRequest.set_bytes, hbuffer, hbytes, SetByteArrayRegion]
    split
    · exact ⟨trivial, one_callback_last_single _ _ _ rfl⟩
    · exact ⟨trivial, one_callback_last_cons _ _ _ _ rfl rfl (one_callback_last_single _ _ _ rfl)⟩
  case UV_FS_READLINK =>
    obtain ⟨link, hlink⟩ := Option.isSome_iff_exists.mp hout
    simp only [FileCallbacks.fs_cb, hlink]
    exact ⟨trivial, one_callback_last_cons _ _ _ _ rfl rfl (one_callback_last_single _ _ _ rfl)⟩
  case UV_FS_READDIR =>
    obtain ⟨names, hnames⟩ := Option.isSome_iff_exists.mp hout
    simp only [FileCallbacks.fs_cb, hnames]
    exact ⟨trivial, one_callback_last_single _ _ _ rfl⟩
  case UV_FS_STAT =>
    exact ⟨rfl, one_callback_last_cons _ _ _ _ rfl rfl (one_callback_last_single _ _ _ rfl)⟩
  case UV_FS_LSTAT =>
    exact ⟨rfl, one_callback_last_cons _ _ _ _ rfl rfl (one_callback_last_single _ _ _ rfl)⟩
  case UV_FS_FSTAT =>
    exact ⟨rfl, one_callback_last_cons _ _ _ _ rfl rfl (one_callback_last_single _ _ _ rfl)⟩
  all_goals exact ⟨rfl, one_callback_last_single _ _ _ rfl⟩

/-- The completion function on a handled kind, for any request object: it
returns, performs one callback and releases afterwards. -/
theorem dispatch_one_shot (h : Heap) (req : uv_fs_t) (request : FileRequest)
    (hdata : req.data = some request) (hhandled : handled req.fs_type = true)
    (hread : req.fs_type = UV_FS_READ →
      request._buffer.isSome = true ∧ request._bytes.isSome = true)
    (hout : req.result = -1 ∨ output_readable req.fs_type req.result req.ptr = true) :
    (_fs_cb h req).val = some () ∧
    (callbacks (_fs_cb h req).trace).map Event.callback_head =
      [some (req.fs_type, request._id)] ∧
    (before_callback (_fs_cb h req).trace).filter Event.is_release = [] ∧
    after_callback (_fs_cb h req).trace =
      [.uv_fs_req_cleanup, .delete_uv_fs_t, .delete_FileRequest] ++ request.destruct := by
  have hstep : ∃ done : Step Unit, done.val = some () ∧
      one_callback_last done.trace req.fs_type request._id ∧
      (_fs_cb h req).val = some () ∧
      (_fs_cb h req).trace = done.trace ++
        ([.uv_fs_req_cleanup, .delete_uv_fs_t, .delete_FileRequest] ++ request.destruct) := by
    by_cases herr : req.result = -1
    · refine ⟨FileCallbacks.fs_cb_errorno h request req.fs_type req.errorno, rfl,
        one_callback_last_single _ _ _ rfl, ?_, ?_⟩ <;>
        simp [_fs_cb, hdata, herr, FileCallbacks.fs_cb_errorno]
    · have hreadable : output_readable req.fs_type req.result req.ptr = true := by
        rcases hout with hneg | hok
        · exact absurd hneg herr
        · exact hok
      obtain ⟨hval, hshape⟩ :=
        fs_cb_one_callback h request req.fs_type req.result req.ptr hhandled hread hreadable
      refine ⟨FileCallbacks.fs_cb h request req.fs_type req.result req.ptr, hval, hshape,
        ?_, ?_⟩ <;>
        simp [_fs_cb, hdata, herr, hval]
  obtain ⟨done, -, ⟨hcbs, hbefore, hafter⟩, hval, htrace⟩ := hstep
  have hne : callbacks done.trace ≠ [] := by
    intro hnil
    rw [hnil] at hcbs
    simp at hcbs
  have htail : callbacks
      ([.uv_fs_req_cleanup, .delete_uv_fs_t, .delete_FileRequest] ++ request.destruct) = [] := by
    have hd := callbacks_destruct request
    simp only [callbacks] at hd ⊢
    simp [List.filter_cons, Event.is_callback, hd]
  refine ⟨hval, ?_, ?_, ?_⟩
  · rw [htrace, callbacks_append, htail, List.append_nil, hcbs]
  · rw [htrace, before_callback_append _ _ hne, hbefore]
  · rw [htrace, after_callback_append _ _ hne, hafter, List.nil_append]

/-- A request submitted by `read` holds its two buffers. -/
theorem read_submitted_buffers (h : Heap) (junk : List jbyte) (uv : uv_reply) (fd : Int)
    (buffer : Nat) (length offset position c : Int) (sub : FileRequest) (hc : c ≠ 0)
    (hsub : sub ∈
      submitted (Java_net_java_libuv_Files__1read h junk uv fd buffer length offset position
        c).trace) :
    sub._buffer.isSome = true ∧ sub._bytes.isSome = true := by
  by_cases hlen : toJint length < 0
  · rw [(read_async_bad_alloc h junk uv fd buffer length offset position c hc hlen).2] at hsub
    simp at hsub
  · rw [read_async h junk uv fd buffer length offset position c hc (by omega)] at hsub
    simp [submitted_append, submitted_GetByteArrayRegion, submitted] at hsub
    subst hsub
    simp

theorem release_not_mem_throw (r : Int) (e : ErrorValue) :
    Event.delete_FileRequest ∉ throw_if_negative r e := by
  unfold throw_if_negative
  split <;> simp

theorem release_not_mem_get (h : Heap) (array : Nat) (start len : Int) (buf : List jbyte) :
    Event.delete_FileRequest ∉ (GetByteArrayRegion h array start len buf).2 := by
  unfold GetByteArrayRegion
  split <;> simp

theorem release_not_mem_set (h : Heap) (array : Nat) (start len : Int) (buf : List jbyte) :
    Event.delete_FileRequest ∉ (SetByteArrayRegion h array start len buf).2 := by
  unfold SetByteArrayRegion
  split <;> simp

theorem release_not_mem_construct (id fd : Int) (path : Option String) :
    Event.delete_FileRequest ∉ (FileRequest.construct id fd path).2 := by
  cases path <;> simp [FileRequest.construct]

/-- No entry point releases a request object. -/
theorem call_never_releases (call : Call) (h : Heap) (junk : List jbyte) (uv : uv_reply)
    (c : Int) : Event.delete_FileRequest ∉ (call.run h junk uv c).trace := by
  cases call
  case _read fd buffer length offset position =>
    simp only [Call.run, Step.map, Java_net_java_libuv_Files__1read, FileRequest.get_bytes]
    split_ifs <;>
      simp [Step.abort, release_not_mem_throw, release_not_mem_get, release_not_mem_set,
        FileRequest.construct]
  case _write fd data length offset position =>
    simp only [Call.run, Step.map, Java_net_java_libuv_Files__1write]
    split_ifs <;>
      simp [Step.abort, release_not_mem_throw, release_not_mem_get, release_not_mem_set,
        FileRequest.construct]
  case _readdir path flags =>
    simp only [Call.run, Step.map, Java_net_java_libuv_Files__1readdir]
    split_ifs
    · simp [FileRequest.construct]
    · cases readdir_loop (toJint uv.result).toNat uv.ptr.as_chars <;> simp [Step.abort]
    · simp
  case _readlink path =>
    simp only [Call.run, Step.map, Java_net_java_libuv_Files__1readlink]
    split_ifs
    · simp [FileRequest.construct]
    · cases NewStringUTF uv.ptr <;> simp [Step.abort, release_not_mem_throw]
  case _open path flags mode =>
    simp only [Call.run, Step.map, Java_net_java_libuv_Files__1open]
    split_ifs <;> simp [FileRequest.construct]
  all_goals
    simp only [Call.run, Step.map, Java_net_java_libuv_Files__1close__JII,
      Java_net_java_libuv_Files__1unlink, Java_net_java_libuv_Files__1mkdir,
      Java_net_java_libuv_Files__1rmdir,
      Java_net_java_libuv_Files__1stat, Java_net_java_libuv_Files__1fstat,
      Java_net_java_libuv_Files__1rename, Java_net_java_libuv_Files__1fsync,
      Java_net_java_libuv_Files__1fdatasync, Java_net_java_libuv_Files__1ftruncate,
      Java_net_java_libuv_Files__1sendfile, Java_net_java_libuv_Files__1chmod,
      Java_net_java_libuv_Files__1utime, Java_net_java_libuv_Files__1futime,
      Java_net_java_libuv_Files__1lstat, Java_net_java_libuv_Files__1link,
      Java_net_java_libuv_Files__1symlink,
      Java_net_java_libuv_Files__1fchmod, Java_net_java_libuv_Files__1chown,
      Java_net_java_libuv_Files__1fchown]
    split_ifs <;> simp [release_not_mem_throw, FileRequest.construct]

/-- C14: for every asynchronous call with completion id `c` and every
completion of its request, successful or not, in which the scheduler reports
the kind of the call, a kind the dispatcher handles, and leaves an output
that can be read: `_fs_cb` returns and performs exactly one callback, passing
the reported kind and the id `c`; nothing is released before that callback,
and after it come, in this order, the scheduler cleanup, the release of the
scheduler request and the release of the request object, followed by nothing
but the effects of its destructor; the call that submitted the request does
not release it. -/
theorem completion_is_one_shot (call : Call) (h0 : Heap) (junk : List jbyte) (uv : uv_reply)
    (c : Int) (sub : FileRequest) (data : List jbyte) (h : Heap) (req : uv_fs_t)
    (hc : c ≠ 0) (hsub : sub ∈ submitted (call.run h0 junk uv c).trace)
    (hdata : req.data = some (sub.filled data)) (hkind : req.fs_type = call.fs_type)
    (hhandled : handled req.fs_type = true)
    (hout : req.result = -1 ∨ output_readable req.fs_type req.result req.ptr = true) :
    (_fs_cb h req).val = some () ∧
    (callbacks (_fs_cb h req).trace).map Event.callback_head = [some (req.fs_type, c)] ∧
    (before_callback (_fs_cb h req).trace).filter Event.is_release = [] ∧
    after_callback (_fs_cb h req).trace =
      [.uv_fs_req_cleanup, .delete_uv_fs_t, .delete_FileRequest] ++
        (sub.filled data).destruct ∧
    Event.delete_FileRequest ∉ (call.run h0 junk uv c).trace := by
  obtain ⟨hid, -, -⟩ := submitted_fields call h0 junk uv c sub hc hsub
  have hread : req.fs_type = UV_FS_READ →
      (sub.filled data)._buffer.isSome = true ∧ (sub.filled data)._bytes.isSome = true := by
    intro hr
    rw [hkind] at hr
    cases call <;> simp [Call.fs_type] at hr
    rename_i fd buffer length offset position
    obtain ⟨hb, hy⟩ := read_submitted_buffers h0 junk uv fd buffer length offset position c sub
      hc (by simpa [Call.run, Step.map] using hsub)
    refine ⟨hb, ?_⟩
    simpa [FileRequest.filled] using hy
  obtain ⟨hval, hcbs, hbefore, hafter⟩ :=
    dispatch_one_shot h req (sub.filled data) hdata hhandled hread hout
  rw [filled_id, hid] at hcbs
  exact ⟨hval, hcbs, hbefore, hafter, call_never_releases call h0 junk uv c⟩

/-- C14 at an asynchronous `stat` of `/f` with completion id 7 that
succeeds: the conversion, the one callback, then the releases. -/
theorem completion_is_one_shot_witness :
    stat_request ∈ submitted ((Call._stat "/f").run [] [] reply_zero 7).trace ∧
    (_fs_cb [] stat_completion).trace =
      [.Stats_create (.statbuf [1, 2, 3]),
       .callback_1arg UV_FS_STAT 7 (.Stats (.statbuf [1, 2, 3])),
       .uv_fs_req_cleanup, .delete_uv_fs_t, .delete_FileRequest,
       .DeleteGlobalRef (.str "/f")] ∧
    after_callback (_fs_cb [] stat_completion).trace =
      [.uv_fs_req_cleanup, .delete_uv_fs_t, .delete_FileRequest, .DeleteGlobalRef (.str "/f")] :=
  have key := completion_is_one_shot (Call._stat "/f") [] [] reply_zero 7 stat_request [] []
    stat_completion (by decide) (by decide) rfl rfl rfl (Or.inr rfl)
  ⟨by decide, by decide, key.2.2.2.1⟩

/-! ## Ownership of the native buffers -/

/-- C15: evaluation at an asynchronous `write` of 3 bytes (completion id 7)
that completes with 3 bytes written.  The copy of the caller's bytes is
allocated at submission, the request object is created with no buffer, and
neither the submission nor the completion releases the copy: it is released
zero times.  The synchronous branch of the same call releases its copy once,
and the asynchronous `read` releases its scratch buffer and its buffer
reference once each. -/
theorem async_write_never_releases_its_copy :
    submitted (Java_net_java_libuv_Files__1write five_bytes [] reply_zero 3 0 3 1 0 7).trace =
      [write_request] ∧
    written (Java_net_java_libuv_Files__1write five_bytes [] reply_zero 3 0 3 1 0 7).trace =
      [[2, 3, 4]] ∧
    jbyte_allocations
      (Java_net_java_libuv_Files__1write five_bytes [] reply_zero 3 0 3 1 0 7).trace = 1 ∧
    (_fs_cb five_bytes write_completion).val = some () ∧
    jbyte_releases
      ((Java_net_java_libuv_Files__1write five_bytes [] reply_zero 3 0 3 1 0 7).trace ++
        (_fs_cb five_bytes write_completion).trace) = 0 ∧
    jbyte_releases
      (Java_net_java_libuv_Files__1write five_bytes [] reply_zero 3 0 3 1 0 0).trace = 1 ∧
    jbyte_allocations
      (Java_net_java_libuv_Files__1read five_bytes [] reply_zero 3 0 3 1 0 7).trace = 1 ∧
    jbyte_releases
      ((Java_net_java_libuv_Files__1read five_bytes [] reply_zero 3 0 3 1 0 7).trace ++
        (_fs_cb five_bytes short_read_completion).trace) = 1 ∧
    global_ref_acquisitions
      (Java_net_java_libuv_Files__1read five_bytes [] reply_zero 3 0 3 1 0 7).trace = 1 ∧
    global_ref_releases
      ((Java_net_java_libuv_Files__1read five_bytes [] reply_zero 3 0 3 1 0 7).trace ++
        (_fs_cb five_bytes short_read_completion).trace) = 1 := by
  refine ⟨by decide, by decide, by decide, by decide, by decide, by decide, by decide,
    by decide, by decide, by decide⟩

/-! ## The sentinel -/

theorem readdir_names_are_strings (todo : Nat) (mem : List Char) (names : List JObject)
    (hloop : fs_cb_readdir_loop todo mem = some names) :
    ∀ name ∈ names, name ≠ _error := by
  induction todo generalizing mem names with
  | zero =>
    simp [fs_cb_readdir_loop] at hloop
    subst hloop
    simp
  | succ todo ih =>
    unfold fs_cb_readdir_loop at hloop
    cases hlen : strlen mem with
    | none => simp [NewStringUTF, Ptr.as_chars, hlen] at hloop
    | some len =>
      simp only [NewStringUTF, Ptr.as_chars, hlen, Option.map_some'] at hloop
      cases hrest : fs_cb_readdir_loop todo (mem.drop (len + 1)) with
      | none => simp [hrest] at hloop
      | some rest =>
        simp only [hrest, Option.map_some', Option.some.injEq] at hloop
        subst hloop
        intro name hname
        rcases List.mem_cons.mp hname with hEq | hmem
        · subst hEq
          simp [_error]
        · exact ih _ rest hrest name hmem

/-- No effect of the success overload of `fs_cb` passes the caller's test of
an error. -/
theorem fs_cb_never_looks_like_error (h : Heap) (request : FileRequest) (fs_type : uv_fs_type)
    (result : Int) (ptr : Ptr) (hok : result ≠ -1)
    (hfd : fs_type = UV_FS_OPEN → -2147483648 ≤ result ∧ result < 2147483648) :
    ∀ e ∈ (FileCallbacks.fs_cb h request fs_type result ptr).trace,
      looks_like_error e = false := by
  cases fs_type
  case UV_FS_OPEN =>
    obtain ⟨hlo, hhi⟩ := hfd rfl
    simp [FileCallbacks.fs_cb, looks_like_error, _error, toJint_of_range result hlo hhi, hok]
  case UV_FS_READ =>
    simp only [FileCallbacks.fs_cb, FileRequest.set_bytes, SetByteArrayRegion]
    cases request._buffer <;> cases request._bytes <;> simp [Step.abort, looks_like_error]
    split <;> simp [looks_like_error, _error]
  case UV_FS_READLINK =>
    simp only [FileCallbacks.fs_cb]
    cases NewStringUTF ptr <;> simp [Step.abort, looks_like_error]
  case UV_FS_READDIR =>
    simp only [FileCallbacks.fs_cb]
    cases hloop : fs_cb_readdir_loop (toJint result).toNat ptr.as_chars with
    | none => simp [Step.abort, looks_like_error]
    | some names =>
      have hstr := readdir_names_are_strings _ _ names hloop
      cases names with
      | nil => simp [looks_like_error]
      | cons first rest =>
        have hfirst := hstr first (List.mem_cons_self _ _)
        simp [looks_like_error, hfirst]
  all_goals simp [FileCallbacks.fs_cb, Step.abort, looks_like_error]

theorem destruct_never_looks_like_error (request : FileRequest) :
    ∀ e ∈ request.destruct, looks_like_error e = false := by
  unfold FileRequest.destruct
  cases request._bytes <;> cases request._buffer <;> cases request._path <;>
    simp [looks_like_error]

/-- C16: for every completion handed to `_fs_cb`, of every operation kind
(for the kind open the result being a descriptor, a C `int`): some callback
delivered is the array-shaped one with the sentinel `Integer` -1 as the first
element of its payload exactly when the scheduler result is -1, that is
exactly when the dispatcher took the error path. -/
theorem sentinel_marks_exactly_the_errors (h : Heap) (req : uv_fs_t) (request : FileRequest)
    (hdata : req.data = some request)
    (hfd : req.fs_type = UV_FS_OPEN → -2147483648 ≤ req.result ∧ req.result < 2147483648) :
    (callbacks (_fs_cb h req).trace).any looks_like_error = decide (req.result = -1) := by
  by_cases herr : req.result = -1
  · rw [(fs_cb_error h req request hdata herr).2.2]
    simp [looks_like_error, _error, herr]
  · have hnone : ∀ e ∈ (_fs_cb h req).trace, looks_like_error e = false := by
      have hcb := fs_cb_never_looks_like_error h request req.fs_type req.result req.ptr herr hfd
      have hde := destruct_never_looks_like_error request
      simp only [_fs_cb, hdata, herr, if_false]
      cases hval : (FileCallbacks.fs_cb h request req.fs_type req.result req.ptr).val with
      | none => simpa [hval] using hcb
      | some u =>
        simp only [hval]
        intro e he
        rcases List.mem_append.mp he with h1 | h2
        · rcases List.mem_append.mp h1 with h3 | h4
          · exact hcb e h3
          · simp at h4
            rcases h4 with rfl | rfl | rfl <;> rfl
        · exact hde e h2
    have hfalse : (callbacks (_fs_cb h req).trace).any looks_like_error = false := by
      rw [List.any_eq_false]
      intro e he
      have hmem : e ∈ (_fs_cb h req).trace := (List.mem_filter.mp he).1
      simp [hnone e hmem]
    rw [hfalse]
    simp [herr]

/-- C16 at a successful `open` with descriptor 9 and at a failed `open`. -/
theorem sentinel_marks_exactly_the_errors_witness :
    (callbacks (_fs_cb [] hosts_open_completion).trace).any looks_like_error = false ∧
    (callbacks (_fs_cb [] missing_open_completion).trace).any looks_like_error = true :=
  ⟨sentinel_marks_exactly_the_errors [] hosts_open_completion hosts_open_request rfl
      (fun _ => ⟨by decide, by decide⟩),
    by decide⟩

/-! ## Conversion of the scheduler's output in the synchronous mode -/

theorem throw_facts (r : Int) (e : ErrorValue) :
    conversions (throw_if_negative r e) = [] ∧
    Event.uv_fs_req_cleanup ∉ throw_if_negative r e ∧
    (thrown (throw_if_negative r e)).length = if r < 0 then 1 else 0 := by
  unfold throw_if_negative
  split <;> simp [conversions, thrown, Event.is_conversion]

/-- C17, as stated, fails: a synchronous `stat` of `/missing` to which the
scheduler answers -1, with a NULL output pointer, performs the conversion
`Stats::create` on that pointer all the same, raises the error and returns
the converted value. -/
theorem failed_stat_still_converts :
    conversions (Java_net_java_libuv_Files__1stat [] reply_failed "/missing" 0).trace =
      [.Stats_create .NULL] ∧
    (thrown (Java_net_java_libuv_Files__1stat [] reply_failed "/missing" 0).trace).length = 1 ∧
    (Java_net_java_libuv_Files__1stat [] reply_failed "/missing" 0).val =
      some (Stats_create .NULL) := by
  refine ⟨by decide, by decide, by decide⟩

/-- C17, amended: the synchronous `stat`, `fstat` and `lstat`, for every
reply `uv` of the scheduler (whatever it returned and wherever its output
pointer points: a stat buffer, NULL, anything), and the synchronous
`readlink`, for every reply `uv_link` whose output pointer is NULL or a
NUL-terminated string, convert the scheduler's output pointer on every call:
the conversion is performed exactly once, before the scheduler cleanup, which
runs; the value converted is the value returned, and it is returned alongside
the error that is raised exactly when the scheduler's value is negative. -/
theorem sync_conversion_is_unconditional (h : Heap) (uv uv_link : uv_reply) (path : String)
    (fd : Int) (link : JObject) (hlink : NewStringUTF uv_link.ptr = some link) :
    converts_then_cleans (Java_net_java_libuv_Files__1stat h uv path 0)
      (.Stats_create uv.ptr) (Stats_create uv.ptr) uv.r ∧
    converts_then_cleans (Java_net_java_libuv_Files__1fstat h uv fd 0)
      (.Stats_create uv.ptr) (Stats_create uv.ptr) uv.r ∧
    converts_then_cleans (Java_net_java_libuv_Files__1lstat h uv path 0)
      (.Stats_create uv.ptr) (Stats_create uv.ptr) uv.r ∧
    converts_then_cleans (Java_net_java_libuv_Files__1readlink h uv_link path 0)
      (.NewStringUTF uv_link.ptr) link uv_link.r := by
  refine ⟨?_, ?_, ?_, ?_⟩
  · obtain ⟨h1, -, h3⟩ := throw_facts uv.r (NewException uv.code (some "uv_fs_stat") none
      (some path))
    simp only [conversions] at h1
    simp [converts_then_cleans, Java_net_java_libuv_Files__1stat, conversions,
      Event.is_conversion, before_cleanup, List.filter_cons, thrown, thrown_append, h1, h3]
  · obtain ⟨h1, -, h3⟩ := throw_facts uv.r (NewException uv.code (some "uv_fs_fstat") none
      none)
    simp only [conversions] at h1
    simp [converts_then_cleans, Java_net_java_libuv_Files__1fstat, conversions,
      Event.is_conversion, before_cleanup, List.filter_cons, thrown, thrown_append, h1, h3]
  · obtain ⟨h1, -, h3⟩ := throw_facts uv.r (NewException uv.code (some "uv_fs_lstat") none
      (some path))
    simp only [conversions] at h1
    simp [converts_then_cleans, Java_net_java_libuv_Files__1lstat, conversions,
      Event.is_conversion, before_cleanup, List.filter_cons, thrown, thrown_append, h1, h3]
  · obtain ⟨h1, -, h3⟩ := throw_facts uv_link.r
      (NewException uv_link.code (some "uv_fs_readklink") none (some path))
    simp only [conversions] at h1
    simp [converts_then_cleans, Java_net_java_libuv_Files__1readlink, hlink, conversions,
      Event.is_conversion, before_cleanup, List.filter_cons, thrown, thrown_append, h1, h3]

/-- C17, amended, at three replies at once: a `stat` that succeeds with its
output pointer at a stat buffer (the stat record is built and returned, no
error), an `fstat` and an `lstat` on the same reply, and a `readlink` that
fails with a NULL output pointer (the conversion is made and yields NULL, the
cleanup runs and one error is raised). -/
theorem sync_conversion_is_unconditional_witness :
    NewStringUTF reply_failed.ptr = some .null ∧
    converts_then_cleans (Java_net_java_libuv_Files__1stat [] stat_reply "/f" 0)
      (.Stats_create (.statbuf [1, 2, 3])) (.Stats (.statbuf [1, 2, 3])) 0 ∧
    converts_then_cleans (Java_net_java_libuv_Files__1fstat [] stat_reply 3 0)
      (.Stats_create (.statbuf [1, 2, 3])) (.Stats (.statbuf [1, 2, 3])) 0 ∧
    converts_then_cleans (Java_net_java_libuv_Files__1lstat [] stat_reply "/f" 0)
      (.Stats_create (.statbuf [1, 2, 3])) (.Stats (.statbuf [1, 2, 3])) 0 ∧
    converts_then_cleans (Java_net_java_libuv_Files__1readlink [] reply_failed "/f" 0)
      (.NewStringUTF .NULL) .null (-1) :=
  ⟨rfl, sync_conversion_is_unconditional [] stat_reply reply_failed "/f" 3 .null rfl⟩

/-! ## A failed synchronous read -/

/-- C18: evaluation at a failed synchronous `read`.  With 3 bytes asked at
offset 1 of the array 1, 2, 3, 4, 5, a scheduler that returns -1 and stores
nothing, and a scratch buffer that holds 0, 0, 0 when allocated, the call
raises the error and leaves the array as 1, 0, 0, 0, 5: the bytes at the
positions 1 to 3 are not the ones the caller had.  The completion of the
asynchronous read with an error leaves the array as it was. -/
theorem failed_sync_read_overwrites_buffer :
    region_ok (five_bytes.array 0) 1 3 ∧
    (thrown
      (Java_net_java_libuv_Files__1read five_bytes [0, 0, 0] reply_failed 3 0 3 1 0 0).trace
      ).length = 1 ∧
    Heap.array
      (Java_net_java_libuv_Files__1read five_bytes [0, 0, 0] reply_failed 3 0 3 1 0 0).heap 0 =
      [1, 0, 0, 0, 5] ∧
    Heap.array (_fs_cb five_bytes failed_read_completion).heap 0 = [1, 2, 3, 4, 5] := by
  refine ⟨by decide, by decide, by decide, by decide⟩

end LibuvJava
